import Mathlib

/-!
Shallow embedding of the CoffeeTech transactions service
(`src/use_cases/generate_financial_report_use_case.py`,
`src/use_cases/edit_transaction_use_case.py`,
`src/use_cases/delete_transaction_use_case.py` and their supporting
modules), together with proofs settling the frozen claims about the
financial-report aggregation engine and the transaction write paths.

Python dicts (including `defaultdict(float)`) are modelled as
insertion-ordered association lists with unique keys; monetary values
(`Decimal` at rest, accumulated through `float(txn.value)` additions in
the source) are modelled as exact rationals `ℚ`, abstracting from the
floating-point representation while keeping the summation structure of
the source.
-/

namespace CoffeeTech

/-- Python `d.get(k)` / `d[k]` lookup on an insertion-ordered dict modelled
as an association list: first entry whose key matches. -/
def dictFind {κ α : Type} [DecidableEq κ] (m : List (κ × α)) (k : κ) : Option α :=
  match m with
  | [] => none
  | (k₁, v) :: rest => if k₁ = k then some v else dictFind rest k

/-- Python `d[k] = v`: replace the value at an existing key in place,
otherwise append the new binding at the end (insertion order). -/
def dictInsert {κ α : Type} [DecidableEq κ] (m : List (κ × α)) (k : κ) (v : α) :
    List (κ × α) :=
  match m with
  | [] => [(k, v)]
  | (k₁, v₁) :: rest =>
    if k₁ = k then (k₁, v) :: rest else (k₁, v₁) :: dictInsert rest k v

/-- Python `defaultdict(float)` update `d[k] += v`: add to the entry at `k`,
creating it (from the default `0.0`) at the end when absent. -/
def dictAdd {κ : Type} [DecidableEq κ] (m : List (κ × ℚ)) (k : κ) (v : ℚ) :
    List (κ × ℚ) :=
  match m with
  | [] => [(k, v)]
  | (k₁, v₁) :: rest =>
    if k₁ = k then (k₁, v₁ + v) :: rest else (k₁, v₁) :: dictAdd rest k v

/-- Update the value stored at key `k` in place (used for the mutation of
one plot's accumulator record inside the `plot_financials` dict). -/
def dictUpdate {κ α : Type} [DecidableEq κ] (m : List (κ × α)) (k : κ) (f : α → α) :
    List (κ × α) :=
  match m with
  | [] => []
  | (k₁, v) :: rest =>
    if k₁ = k then (k₁, f v) :: rest else (k₁, v) :: dictUpdate rest k f

/-- Read of a `defaultdict(float)`: missing keys read as `0`. -/
def dictGetQ {κ : Type} [DecidableEq κ] (m : List (κ × ℚ)) (k : κ) : ℚ :=
  (dictFind m k).getD 0

/-- Sum of all values of a `ℚ`-valued dict. -/
def sumVals {κ : Type} (m : List (κ × ℚ)) : ℚ :=
  (m.map (fun p => p.2)).sum

/-- Keys of a dict, in insertion order. -/
def keys {κ α : Type} (m : List (κ × α)) : List κ :=
  m.map (fun p => p.1)

/-- Sum of `g` over all values of a dict; used to relate a farm-level
accumulator to the plot-level entries it aggregates. -/
def sumBy {κ α : Type} (g : α → ℚ) (m : List (κ × α)) : ℚ :=
  (m.map (fun p => g p.2)).sum

/-! ### Data model (src/models/models.py, src/adapters, src/domain/schemas.py) -/

/-- Row of `transaction_types` (models.py `TransactionTypes`). -/
structure TransactionTypes where
  transaction_type_id : Nat
  name : String
deriving DecidableEq

/-- Row of `transaction_categories` (models.py `TransactionCategories`).
The `transaction_type` field models the `joinedload`ed relationship used by
the report engine; the source checks `not txn_category_obj.transaction_type`
so it is an `Option`. -/
structure TransactionCategories where
  transaction_category_id : Nat
  name : String
  transaction_type_id : Nat
  transaction_type : Option TransactionTypes
deriving DecidableEq

/-- Row of `transaction_states` (models.py `TransactionStates`). -/
structure TransactionStates where
  transaction_state_id : Nat
  name : String
deriving DecidableEq

/-- Row of `transactions` (models.py `Transactions`); `value` is `Numeric(15,2)`
read through `float(txn.value)`, modelled as an exact rational. Dates are
modelled as integers (day ordinals) with the usual order. -/
structure Transactions where
  transaction_id : Nat
  plot_id : Nat
  description : Option String
  transaction_date : Int
  transaction_state_id : Nat
  value : ℚ
  transaction_category_id : Nat
  creator_id : Nat
deriving DecidableEq

/-- External plot view (farm_client.py `PlotVerificationResponse`). -/
structure PlotVerificationResponse where
  plot_id : Nat
  name : String
  farm_id : Nat
deriving DecidableEq

/-- External farm view (farm_client.py `FarmDetailResponse`), fields used. -/
structure FarmDetailResponse where
  farm_id : Nat
  name : String
deriving DecidableEq

/-- External user view (user_client.py `UserResponse`). -/
structure UserResponse where
  user_id : Nat
  name : String
deriving DecidableEq

/-- External user-role-farm link (farm_client.py `UserRoleFarmResponse`),
fields used by the report engine. -/
structure UserRoleFarmResponse where
  user_role_farm_id : Nat
  user_role_id : Nat
  farm_id : Nat
deriving DecidableEq

/-- Report request (schemas.py `FinancialReportRequest`). -/
structure FinancialReportRequest where
  plot_ids : List Nat
  fechaInicio : Int
  fechaFin : Int
  include_transaction_history : Bool
deriving DecidableEq

/-! ### Aggregation accumulators

`generate_financial_report` initialises, per plot, a dict
`{plot_id, plot_name, ingresos, gastos, balance, ingresos_por_categoria,
gastos_por_categoria}` with `defaultdict(float)` breakdowns, and one
`farm_totals` dict; `_process_transaction` mutates them in place. -/

/-- One entry of the `plot_financials` dict. -/
structure PlotAcc where
  plot_id : Nat
  plot_name : String
  ingresos : ℚ
  gastos : ℚ
  balance : ℚ
  ingresos_por_categoria : List (String × ℚ)
  gastos_por_categoria : List (String × ℚ)
deriving DecidableEq

/-- The `farm_totals` dict. -/
structure FarmTotals where
  ingresos : ℚ
  gastos : ℚ
  ingresos_categorias : List (String × ℚ)
  gastos_categorias : List (String × ℚ)
deriving DecidableEq

/-- The two accumulator structures threaded through `_process_transaction`. -/
structure AggState where
  plot_financials : List (Nat × PlotAcc)
  farm_totals : FarmTotals
deriving DecidableEq

/-- Python `str.lower()` on the ASCII type names compared by
`_process_transaction` (executable variant of `String.toLower`, mapping
`Char.toLower` over the characters). -/
def pyLower (s : String) : String :=
  String.mk (s.data.map Char.toLower)

/-- Income synonym set of `_process_transaction` (line 97). -/
def incomeSynonyms : List String := ["ingreso", "income", "revenue"]

/-- Expense synonym set of `_process_transaction` (line 102). -/
def expenseSynonyms : List String := ["gasto", "expense", "cost"]

/-- Embedding of `_process_transaction(txn, categories_map, plot_financials,
farm_totals)`: skip when the plot is not in the report, when the category is
missing from the map or has no type, or when the type name (lower-cased) is
in neither synonym set; otherwise add `float(txn.value)` to the four
accumulators of the matched side. -/
def process_transaction (txn : Transactions)
    (categories_map : List (Nat × TransactionCategories)) (s : AggState) :
    AggState :=
  match dictFind s.plot_financials txn.plot_id with
  | none => s
  | some _ =>
    match dictFind categories_map txn.transaction_category_id with
    | none => s
    | some cat =>
      match cat.transaction_type with
      | none => s
      | some ty =>
        let category_name := cat.name
        let monto := txn.value
        if pyLower ty.name ∈ incomeSynonyms then
          { plot_financials :=
              dictUpdate s.plot_financials txn.plot_id (fun a =>
                { a with
                  ingresos := a.ingresos + monto,
                  ingresos_por_categoria :=
                    dictAdd a.ingresos_por_categoria category_name monto }),
            farm_totals :=
              { s.farm_totals with
                ingresos := s.farm_totals.ingresos + monto,
                ingresos_categorias :=
                  dictAdd s.farm_totals.ingresos_categorias category_name monto } }
        else if pyLower ty.name ∈ expenseSynonyms then
          { plot_financials :=
              dictUpdate s.plot_financials txn.plot_id (fun a =>
                { a with
                  gastos := a.gastos + monto,
                  gastos_por_categoria :=
                    dictAdd a.gastos_por_categoria category_name monto }),
            farm_totals :=
              { s.farm_totals with
                gastos := s.farm_totals.gastos + monto,
                gastos_categorias :=
                  dictAdd s.farm_totals.gastos_categorias category_name monto } }
        else s

/-- Initial `plot_financials` dict built by `generate_financial_report`
(lines 203-212): one all-zero entry per resolved plot. -/
def initPlotFinancials (plots : List PlotVerificationResponse)
    (plot_names : List (Nat × String)) : List (Nat × PlotAcc) :=
  plots.foldl (fun m p =>
    dictInsert m p.plot_id
      { plot_id := p.plot_id
        plot_name := (dictFind plot_names p.plot_id).getD ""
        ingresos := 0
        gastos := 0
        balance := 0
        ingresos_por_categoria := []
        gastos_por_categoria := [] }) []

/-- Initial `farm_totals` dict (lines 196-201). -/
def initFarmTotals : FarmTotals :=
  { ingresos := 0, gastos := 0, ingresos_categorias := [], gastos_categorias := [] }

/-- The transaction-processing loop of `generate_financial_report`
(lines 215-216). -/
def processAll (transactions : List Transactions)
    (categories_map : List (Nat × TransactionCategories)) (s : AggState) :
    AggState :=
  transactions.foldl (fun acc t => process_transaction t categories_map acc) s

/-! ### Derived response schemas (src/domain/schemas.py) -/

/-- schemas.py `FinancialCategoryBreakdown`. -/
structure FinancialCategoryBreakdown where
  category_name : String
  monto : ℚ
deriving DecidableEq

/-- schemas.py `PlotFinancialData`. -/
structure PlotFinancialData where
  plot_id : Nat
  plot_name : String
  ingresos : ℚ
  gastos : ℚ
  balance : ℚ
  ingresos_por_categoria : List FinancialCategoryBreakdown
  gastos_por_categoria : List FinancialCategoryBreakdown
deriving DecidableEq

/-- schemas.py `FarmFinancialSummary`. -/
structure FarmFinancialSummary where
  total_ingresos : ℚ
  total_gastos : ℚ
  balance_financiero : ℚ
  ingresos_por_categoria : List FinancialCategoryBreakdown
  gastos_por_categoria : List FinancialCategoryBreakdown
deriving DecidableEq

/-- schemas.py `TransactionHistoryItem`. -/
structure TransactionHistoryItem where
  date : Int
  plot_name : String
  farm_name : String
  transaction_type : String
  transaction_category : String
  creator_name : String
  value : ℚ
deriving DecidableEq

/-- schemas.py `FinancialReportResponse`. -/
structure FinancialReportResponse where
  finca_nombre : String
  lotes_incluidos : List String
  periodo : String
  plot_financials : List PlotFinancialData
  farm_summary : FarmFinancialSummary
  analysis : Option String
  transaction_history : Option (List TransactionHistoryItem)
deriving DecidableEq

/-- Turn a breakdown dict into the list shape used by the response
(the comprehension `[FinancialCategoryBreakdown(category_name=k, monto=v)
for k, v in d.items()]`). -/
def toBreakdownList (m : List (String × ℚ)) : List FinancialCategoryBreakdown :=
  m.map (fun p => { category_name := p.1, monto := p.2 })

/-- Embedding of `_build_plot_financials_list`: sets
`balance = ingresos - gastos` on each entry and converts the breakdown
dicts to lists. -/
def build_plot_financials_list (plot_financials : List (Nat × PlotAcc)) :
    List PlotFinancialData :=
  plot_financials.map (fun p =>
    { plot_id := p.2.plot_id
      plot_name := p.2.plot_name
      ingresos := p.2.ingresos
      gastos := p.2.gastos
      balance := p.2.ingresos - p.2.gastos
      ingresos_por_categoria := toBreakdownList p.2.ingresos_por_categoria
      gastos_por_categoria := toBreakdownList p.2.gastos_por_categoria })

/-! ### History builder (`_build_transaction_history`, lines 126-168)

The number of `get_user_by_id` round-trips is the subject of one claim, so
the embedding of the external collaborator records each invocation in a
`calls` log alongside the memoization cache `creator_cache`. -/

/-- State threaded through the history loop: the items built so far, the
`creator_cache` dict, and the instrumentation log of `get_user_by_id`
invocations. -/
structure HistState where
  items : List TransactionHistoryItem
  creator_cache : List (Nat × UserResponse)
  calls : List Nat
deriving DecidableEq

/-- Embedding of the closure `get_creator_info(creator_id)`: on a cache miss
it invokes `get_user_by_id` (recorded in the log); the result is cached only
when the lookup returns a user, otherwise the fallback name
`"Usuario #<id>"` is returned and nothing is cached. -/
def get_creator_info (get_user_by_id : Nat → Option UserResponse)
    (creator_cache : List (Nat × UserResponse)) (creator_id : Nat) :
    String × List (Nat × UserResponse) × List Nat :=
  match dictFind creator_cache creator_id with
  | none =>
    match get_user_by_id creator_id with
    | some user_obj => (user_obj.name, dictInsert creator_cache creator_id user_obj, [creator_id])
    | none => ("Usuario #" ++ toString creator_id, creator_cache, [creator_id])
  | some cached => (cached.name, creator_cache, [])

/-- One iteration of the history loop: skip when the category is missing
from the map or has no type; otherwise resolve the creator name (through
the cache) and append one `TransactionHistoryItem`. -/
def history_step (get_user_by_id : Nat → Option UserResponse)
    (categories_map : List (Nat × TransactionCategories))
    (plot_names : List (Nat × String)) (farm_name : String)
    (st : HistState) (txn : Transactions) : HistState :=
  let plot_name := (dictFind plot_names txn.plot_id).getD ("Lote #" ++ toString txn.plot_id)
  match dictFind categories_map txn.transaction_category_id with
  | none => st
  | some cat =>
    match cat.transaction_type with
    | none => st
    | some ty =>
      let r := get_creator_info get_user_by_id st.creator_cache txn.creator_id
      { items := st.items ++
          [{ date := txn.transaction_date
             plot_name := plot_name
             farm_name := farm_name
             transaction_type := ty.name
             transaction_category := cat.name
             creator_name := r.1
             value := txn.value }]
        creator_cache := r.2.1
        calls := st.calls ++ r.2.2 }

/-- Embedding of `_build_transaction_history`: fold of `history_step` over
the fetched transactions, starting from an empty item list and an empty
`creator_cache`. -/
def build_transaction_history (get_user_by_id : Nat → Option UserResponse)
    (transactions : List Transactions)
    (categories_map : List (Nat × TransactionCategories))
    (plot_names : List (Nat × String)) (farm_name : String) : HistState :=
  transactions.foldl (history_step get_user_by_id categories_map plot_names farm_name)
    { items := [], creator_cache := [], calls := [] }

/-! ### Pipeline (`generate_financial_report` and its helpers) -/

/-- HTTP-level response. Modelled from the spec: `utils/response.py` is not
under src/ (only its tests are); per those tests and spec section 7,
`create_response(status, message, data, status_code)` returns a JSON
response carrying exactly the given status string, message, payload and
HTTP status code (200 by default for success paths). -/
structure Response where
  status : String
  message : String
  status_code : Nat
  data : Option FinancialReportResponse
deriving DecidableEq

/-- Modelled from the spec: thin constructor corresponding to
`create_response` of `utils/response.py` (wrapper building the JSON body
`\x7bstatus, message, data\x7d` with the given HTTP status code). -/
def create_response (status message : String) (status_code : Nat)
    (data : Option FinancialReportResponse) : Response :=
  { status := status, message := message, status_code := status_code, data := data }

/-- The two exception kinds raised inside the `try` block of
`generate_financial_report` and told apart by its `except` clauses. -/
inductive PyErr where
  | valueError (msg : String)
  | permissionError (msg : String)
deriving DecidableEq

/-- Contiguous-prefix test on character lists. -/
def charPrefix : List Char → List Char → Bool
  | [], _ => true
  | _ :: _, [] => false
  | a :: as, b :: bs => a = b && charPrefix as bs

/-- Contiguous-sublist test on character lists. -/
def charInfix (sub : List Char) : List Char → Bool
  | [] => charPrefix sub []
  | c :: cs => charPrefix sub (c :: cs) || charInfix sub cs

/-- Python's substring test `sub in s` (used by the `ValueError` handler
on line 255 to pick 404 over 400). -/
def pyContains (s sub : String) : Bool :=
  charInfix sub.data s.data

/-- External collaborators consumed by the report engine
(src/adapters/farm_client.py and src/adapters/user_client.py). -/
structure Env where
  verify_plot : Nat → Option PlotVerificationResponse
  get_farm_by_id : Nat → Option FarmDetailResponse
  get_user_role_farm : Nat → Nat → Option UserRoleFarmResponse
  get_role_permissions_for_user_role : Nat → List String
  get_user_by_id : Nat → Option UserResponse

/-- The tables of the local database touched by the report engine. -/
structure ReportDB where
  transaction_states : List TransactionStates
  transactions : List Transactions
  transaction_categories : List TransactionCategories
deriving DecidableEq

/-- Embedding of `utils/state.py` `get_transaction_state`: first
`transaction_states` row with the given name. -/
def get_transaction_state (db : ReportDB) (state_name : String) :
    Option TransactionStates :=
  db.transaction_states.find? (fun s => s.name == state_name)

/-- Embedding of `_validate_and_get_plots` (lines 25-46): drop unverified
plots, fail with the no-active-plots `ValueError` when none survive, then
with the multi-farm `ValueError` when the resolved plots span more than one
farm id. -/
def validate_and_get_plots (verify_plot : Nat → Option PlotVerificationResponse)
    (plot_ids : List Nat) :
    Except PyErr (List PlotVerificationResponse × List (Nat × String) × Nat) :=
  let plots := plot_ids.filterMap verify_plot
  let plot_names := plots.foldl (fun m p => dictInsert m p.plot_id p.name) []
  let farm_ids := (plots.map (fun p => p.farm_id)).eraseDups
  if plots.isEmpty then
    .error (.valueError "No se encontraron lotes activos con los IDs proporcionados")
  else
    match farm_ids with
    | [farm_id] => .ok (plots, plot_names, farm_id)
    | _ => .error (.valueError "Los lotes seleccionados pertenecen a diferentes fincas")

/-- Embedding of `_validate_user_permissions` (lines 48-56). -/
def validate_user_permissions
    (get_user_role_farm : Nat → Nat → Option UserRoleFarmResponse)
    (get_role_permissions_for_user_role : Nat → List String)
    (user : UserResponse) (farm_id : Nat) : Except PyErr Unit :=
  match get_user_role_farm user.user_id farm_id with
  | none =>
    .error (.permissionError ("El usuario " ++ toString user.user_id ++
      " no está asociado con la finca " ++ toString farm_id))
  | some user_role_farm =>
    if "read_financial_report" ∈ get_role_permissions_for_user_role user_role_farm.user_role_id
    then .ok ()
    else .error (.permissionError "No tienes permiso para ver reportes financieros")

/-- Embedding of `_get_transactions_and_categories` (lines 58-79): resolve
the "Activo" state row (raising the configuration `ValueError` when it is
missing), filter the date-bounded active transactions of the requested
plots, and batch-build the category map for the distinct category ids. -/
def get_transactions_and_categories (db : ReportDB)
    (request : FinancialReportRequest) :
    Except PyErr (List Transactions × List (Nat × TransactionCategories)) :=
  match get_transaction_state db "Activo" with
  | none => .error (.valueError "Estado 'Activo' para Transactions no encontrado")
  | some active_transaction_state =>
    let transactions := db.transactions.filter (fun t =>
      decide (t.plot_id ∈ request.plot_ids ∧
        request.fechaInicio ≤ t.transaction_date ∧
        t.transaction_date ≤ request.fechaFin ∧
        t.transaction_state_id = active_transaction_state.transaction_state_id))
    let category_ids : List Nat :=
      (transactions.map (fun t => t.transaction_category_id)).eraseDups
    let categories_map :=
      (db.transaction_categories.filter
        (fun c => decide (c.transaction_category_id ∈ category_ids))).foldl
        (fun m c => dictInsert m c.transaction_category_id c) []
    .ok (transactions, categories_map)

/-- Success-path assembly of `generate_financial_report` (lines 194-249):
run the accumulators over all fetched transactions and build the
`FinancialReportResponse`, attaching the history only when requested. -/
def build_report (env : Env) (request : FinancialReportRequest)
    (farm : FarmDetailResponse) (plots : List PlotVerificationResponse)
    (plot_names : List (Nat × String)) (transactions : List Transactions)
    (categories_map : List (Nat × TransactionCategories)) :
    FinancialReportResponse :=
  let final := processAll transactions categories_map
    { plot_financials := initPlotFinancials plots plot_names
      farm_totals := initFarmTotals }
  { finca_nombre := farm.name
    lotes_incluidos := plots.map (fun p => (dictFind plot_names p.plot_id).getD "")
    periodo := toString request.fechaInicio ++ " a " ++ toString request.fechaFin
    plot_financials := build_plot_financials_list final.plot_financials
    farm_summary :=
      { total_ingresos := final.farm_totals.ingresos
        total_gastos := final.farm_totals.gastos
        balance_financiero := final.farm_totals.ingresos - final.farm_totals.gastos
        ingresos_por_categoria := toBreakdownList final.farm_totals.ingresos_categorias
        gastos_por_categoria := toBreakdownList final.farm_totals.gastos_categorias }
    analysis := none
    transaction_history :=
      if request.include_transaction_history then
        some (build_transaction_history env.get_user_by_id transactions
          categories_map plot_names farm.name).items
      else none }

/-- The `except` clauses of `generate_financial_report` (lines 254-257):
a `ValueError` maps to 404 when its message contains "no encontrado" and
to 400 otherwise; a `PermissionError` maps to 403. -/
def handle_report_error (e : PyErr) : Response :=
  match e with
  | .valueError msg =>
    create_response "error" msg (if pyContains msg "no encontrado" then 404 else 400) none
  | .permissionError msg => create_response "error" msg 403 none

/-- Embedding of `generate_financial_report` (lines 170-260). -/
def generate_financial_report (env : Env) (db : ReportDB)
    (request : FinancialReportRequest) (user : UserResponse) : Response :=
  match validate_and_get_plots env.verify_plot request.plot_ids with
  | .error e => handle_report_error e
  | .ok (plots, plot_names, farm_id) =>
    match env.get_farm_by_id farm_id with
    | none =>
      create_response "error"
        "La finca asociada a los lotes no existe o no está disponible" 404 none
    | some farm =>
      match validate_user_permissions env.get_user_role_farm
          env.get_role_permissions_for_user_role user farm_id with
      | .error e => handle_report_error e
      | .ok _ =>
        match get_transactions_and_categories db request with
        | .error e => handle_report_error e
        | .ok (transactions, categories_map) =>
          create_response "success" "Reporte financiero generado correctamente" 200
            (some (build_report env request farm plots plot_names transactions
              categories_map))

/-! ### Write paths (src/use_cases/edit_transaction_use_case.py and
src/use_cases/delete_transaction_use_case.py)

Both use cases address the stored transaction through `entity_type` /
`entity_id` (as do their tests), so the record is modelled with the exact
fields those functions read and write. Responses on these paths carry no
report payload, so they are modelled by status, message and HTTP code. -/

/-- A transaction row as accessed by the edit and delete use cases. -/
structure StoredTransaction where
  transaction_id : Nat
  entity_type : String
  entity_id : Nat
  transaction_state_id : Nat
  transaction_category_id : Nat
  transaction_type_id : Nat
  description : Option String
  value : ℚ
  transaction_date : Int
deriving DecidableEq

/-- Database state threaded through the write paths; `db.commit()` is the
only operation that changes it. -/
structure WriteDB where
  transaction_states : List TransactionStates
  transactions : List StoredTransaction
  transaction_categories : List TransactionCategories
deriving DecidableEq

/-- Response of a write path (no report payload). -/
structure WriteResponse where
  status : String
  message : String
  status_code : Nat
deriving DecidableEq

/-- Modelled from the spec: `create_response` of `utils/response.py` on a
write path, carrying status, message and HTTP status code. -/
def write_response (status message : String) (status_code : Nat) : WriteResponse :=
  { status := status, message := message, status_code := status_code }

/-- Modelled from the spec: `session_token_invalid_response()` of
`utils/response.py`; per its tests a 401 error response with the fixed
message below. -/
def session_token_invalid_response : WriteResponse :=
  write_response "error" "Credenciales expiradas, cerrando sesión." 401

/-- Result of `get_user_role_farm_state_by_name` (farm_client.py): a dict
whose `user_role_farm_state_id` entry is read with `.get`, hence optional;
the Python truthiness test also rejects an id of `0`. -/
structure UserRoleFarmState where
  user_role_farm_state_id : Option Nat
deriving DecidableEq

/-- External collaborators consumed by the write paths. -/
structure WriteEnv where
  verify_session_token : String → Option UserResponse
  get_user_role_farm_state_by_name : String → Option UserRoleFarmState
  get_user_role_farm : Nat → Nat → Option UserRoleFarmResponse
  get_role_permissions_for_user_role : Nat → List String
  verify_plot : Nat → Option PlotVerificationResponse

/-- schemas.py `UpdateTransactionRequest` (all update fields optional). -/
structure UpdateTransactionRequest where
  transaction_id : Nat
  transaction_category_id : Option Nat
  description : Option String
  value : Option ℚ
  transaction_date : Option Int
deriving DecidableEq

/-- schemas.py `DeleteTransactionRequest`. -/
structure DeleteTransactionRequest where
  transaction_id : Nat
deriving DecidableEq

/-- Embedding of `utils/state.py` `get_transaction_state` over the
write-path database. -/
def get_transaction_state_rows (states : List TransactionStates)
    (state_name : String) : Option TransactionStates :=
  states.find? (fun s => s.name == state_name)

/-- Step 5-6 of both write paths: resolve the farm id from the
transaction's entity and check the user's farm link; returns the farm id
or the early error response. The `forbidden_msg` differs between edit and
delete. -/
def resolve_farm_and_link (env : WriteEnv) (user : UserResponse)
    (transaction : StoredTransaction) (forbidden_msg : String) :
    Except WriteResponse UserRoleFarmResponse :=
  let entity_farm : Except WriteResponse Nat :=
    if transaction.entity_type = "farm" then .ok transaction.entity_id
    else if transaction.entity_type = "plot" then
      match env.verify_plot transaction.entity_id with
      | none => .error (write_response "error"
          "El lote asociado a esta transacción no existe o no está activo" 404)
      | some plot_info => .ok plot_info.farm_id
    else .error (write_response "error" "Tipo de entidad no soportado" 400)
  match entity_farm with
  | .error r => .error r
  | .ok farm_id =>
    match env.get_user_role_farm user.user_id farm_id with
    | none => .error (write_response "error" forbidden_msg 403)
    | some user_role_farm => .ok user_role_farm

/-- Steps 7 of `edit_transaction_use_case` (lines 77-106): apply the
provided fields one by one, returning the early 400 error response on the
first invalid field, otherwise the updated in-memory record. -/
def edit_apply_updates (db : WriteDB) (request : UpdateTransactionRequest)
    (transaction : StoredTransaction) : Except WriteResponse StoredTransaction :=
  let step_cat : Except WriteResponse StoredTransaction :=
    match request.transaction_category_id with
    | none => .ok transaction
    | some cid =>
      match db.transaction_categories.find?
          (fun c => c.transaction_category_id == cid) with
      | none => .error (write_response "error"
          "La categoría de transacción especificada no existe" 400)
      | some transaction_category =>
        .ok { transaction with
              transaction_category_id := transaction_category.transaction_category_id
              transaction_type_id := transaction_category.transaction_type_id }
  match step_cat with
  | .error r => .error r
  | .ok t₁ =>
    let step_desc : Except WriteResponse StoredTransaction :=
      match request.description with
      | none => .ok t₁
      | some d =>
        if 50 < d.length then
          .error (write_response "error"
            "La descripción no puede exceder los 50 caracteres" 400)
        else .ok { t₁ with description := some d }
    match step_desc with
    | .error r => .error r
    | .ok t₂ =>
      let step_value : Except WriteResponse StoredTransaction :=
        match request.value with
        | none => .ok t₂
        | some v =>
          if v ≤ 0 then
            .error (write_response "error"
              "El valor de la transacción debe ser positivo" 400)
          else .ok { t₂ with value := v }
      match step_value with
      | .error r => .error r
      | .ok t₃ =>
        match request.transaction_date with
        | none => .ok t₃
        | some d => .ok { t₃ with transaction_date := d }

/-- Write-back of `db.commit()`: the mutated row replaces the stored row
with the same primary key. -/
def commitTransaction (db : WriteDB) (t : StoredTransaction) : WriteDB :=
  { db with
    transactions := db.transactions.map
      (fun u => if u.transaction_id = t.transaction_id then t else u) }

/-- Embedding of `edit_transaction_use_case(request, session_token, db)`:
returns the response together with the (possibly updated) database. -/
def edit_transaction_use_case (env : WriteEnv) (db : WriteDB)
    (request : UpdateTransactionRequest) (session_token : String) :
    WriteResponse × WriteDB :=
  if session_token = "" then
    (write_response "error" "Token de sesión faltante" 401, db)
  else
    match env.verify_session_token session_token with
    | none => (session_token_invalid_response, db)
    | some user =>
      match db.transactions.find?
          (fun t => t.transaction_id == request.transaction_id) with
      | none => (write_response "error" "La transacción especificada no existe" 404, db)
      | some transaction =>
        match get_transaction_state_rows db.transaction_states "Inactivo" with
        | none =>
          (write_response "error" "Estado 'Inactivo' para Transactions no encontrado" 500, db)
        | some inactive_transaction_state =>
          if transaction.transaction_state_id =
              inactive_transaction_state.transaction_state_id then
            (write_response "error"
              "La transacción está inactiva y no puede ser modificada" 403, db)
          else
            match env.get_user_role_farm_state_by_name "Activo" with
            | none =>
              (write_response "error"
                "Estado 'Activo' para user_role_farm no encontrado" 400, db)
            | some active_urf_state =>
              match active_urf_state.user_role_farm_state_id with
              | none =>
                (write_response "error"
                  "Estado 'Activo' para user_role_farm no encontrado" 400, db)
              | some urf_state_id =>
                if urf_state_id = 0 then
                  (write_response "error"
                    "Estado 'Activo' para user_role_farm no encontrado" 400, db)
                else
                  match resolve_farm_and_link env user transaction
                      "No tienes permisos para editar transacciones en esta finca" with
                  | .error r => (r, db)
                  | .ok user_role_farm =>
                    if "edit_transaction" ∈
                        env.get_role_permissions_for_user_role
                          user_role_farm.user_role_id then
                      match edit_apply_updates db request transaction with
                      | .error r => (r, db)
                      | .ok t =>
                        (write_response "success" "Transacción actualizada correctamente" 200,
                         commitTransaction db t)
                    else
                      (write_response "error"
                        "No tienes permiso para editar transacciones" 403, db)

/-- Embedding of `delete_transaction_use_case(request, session_token, db)`:
a soft delete that moves the transaction to the "Inactivo" state. -/
def delete_transaction_use_case (env : WriteEnv) (db : WriteDB)
    (request : DeleteTransactionRequest) (session_token : String) :
    WriteResponse × WriteDB :=
  if session_token = "" then
    (write_response "error" "Token de sesión faltante" 401, db)
  else
    match env.verify_session_token session_token with
    | none => (session_token_invalid_response, db)
    | some user =>
      match db.transactions.find?
          (fun t => t.transaction_id == request.transaction_id) with
      | none => (write_response "error" "La transacción especificada no existe" 404, db)
      | some transaction =>
        match get_transaction_state_rows db.transaction_states "Inactivo" with
        | none =>
          (write_response "error" "Estado 'Inactivo' para Transactions no encontrado" 500, db)
        | some inactive_transaction_state =>
          if transaction.transaction_state_id =
              inactive_transaction_state.transaction_state_id then
            (write_response "error" "La transacción ya está eliminada" 400, db)
          else
            match resolve_farm_and_link env user transaction
                "No tienes permisos para eliminar transacciones en esta finca" with
            | .error r => (r, db)
            | .ok user_role_farm =>
              if "delete_transaction" ∈
                  env.get_role_permissions_for_user_role user_role_farm.user_role_id then
                (write_response "success" "Transacción eliminada correctamente" 200,
                 commitTransaction db
                   { transaction with
                     transaction_state_id :=
                       inactive_transaction_state.transaction_state_id })
              else
                (write_response "error"
                  "No tienes permiso para eliminar transacciones" 403, db)

/-! ### Accessors over the accumulator state -/

/-- Plot-level income total (reading `plot_financials[pid]["ingresos"]`,
`0` when the plot is not tracked). -/
def plotIngresos (s : AggState) (pid : Nat) : ℚ :=
  match dictFind s.plot_financials pid with
  | some a => a.ingresos
  | none => 0

/-- Plot-level expense total. -/
def plotGastos (s : AggState) (pid : Nat) : ℚ :=
  match dictFind s.plot_financials pid with
  | some a => a.gastos
  | none => 0

/-- Plot-level per-category income total. -/
def plotIngresosCat (s : AggState) (pid : Nat) (cn : String) : ℚ :=
  match dictFind s.plot_financials pid with
  | some a => dictGetQ a.ingresos_por_categoria cn
  | none => 0

/-- Plot-level per-category expense total. -/
def plotGastosCat (s : AggState) (pid : Nat) (cn : String) : ℚ :=
  match dictFind s.plot_financials pid with
  | some a => dictGetQ a.gastos_por_categoria cn
  | none => 0

/-- Farm-level per-category income total. -/
def farmIngresosCat (s : AggState) (cn : String) : ℚ :=
  dictGetQ s.farm_totals.ingresos_categorias cn

/-- Farm-level per-category expense total. -/
def farmGastosCat (s : AggState) (cn : String) : ℚ :=
  dictGetQ s.farm_totals.gastos_categorias cn

/-- Aggregation-consistency invariant: the two farm-level totals equal the
sums of the corresponding plot-level totals. -/
def aggSums (s : AggState) : Prop :=
  s.farm_totals.ingresos = sumBy PlotAcc.ingresos s.plot_financials ∧
  s.farm_totals.gastos = sumBy PlotAcc.gastos s.plot_financials

/-- Per-scope breakdown invariant: each total equals the sum of its
per-category breakdown and each breakdown has pairwise-distinct names. -/
def plotAccCatInv (a : PlotAcc) : Prop :=
  a.ingresos = sumVals a.ingresos_por_categoria ∧
  a.gastos = sumVals a.gastos_por_categoria ∧
  (keys a.ingresos_por_categoria).Nodup ∧
  (keys a.gastos_por_categoria).Nodup

/-- The breakdown invariant over the whole accumulator state. -/
def aggCatInv (s : AggState) : Prop :=
  (∀ p ∈ s.plot_financials, plotAccCatInv p.2) ∧
  s.farm_totals.ingresos = sumVals s.farm_totals.ingresos_categorias ∧
  s.farm_totals.gastos = sumVals s.farm_totals.gastos_categorias ∧
  (keys s.farm_totals.ingresos_categorias).Nodup ∧
  (keys s.farm_totals.gastos_categorias).Nodup

/-! ### Concrete fixtures (used to evaluate the embedding on explicit
inputs, mirroring the scenarios of the test suite) -/

/-- A verified plot of farm 100. -/
def exPlot1 : PlotVerificationResponse :=
  { plot_id := 1, name := "Lote 1", farm_id := 100 }

/-- The farm owning `exPlot1`. -/
def exFarm : FarmDetailResponse := { farm_id := 100, name := "Finca La Esperanza" }

/-- The requesting user. -/
def exUser : UserResponse := { user_id := 42, name := "Admin" }

/-- Collaborators where plot 1 verifies, farm 100 exists, the user is
linked with the `read_financial_report` permission, and user lookups miss. -/
def exEnv : Env :=
  { verify_plot := fun pid => if pid = 1 then some exPlot1 else none
    get_farm_by_id := fun fid => if fid = 100 then some exFarm else none
    get_user_role_farm := fun _ _ =>
      some { user_role_farm_id := 11, user_role_id := 2, farm_id := 100 }
    get_role_permissions_for_user_role := fun _ => ["read_financial_report"]
    get_user_by_id := fun _ => none }

/-- Same collaborators but every plot verification fails. -/
def exEnvNoPlots : Env :=
  { exEnv with verify_plot := fun _ => none }

/-- Report request over plot 1 with history requested. -/
def exReq : FinancialReportRequest :=
  { plot_ids := [1], fechaInicio := 0, fechaFin := 100
    include_transaction_history := true }

def exTyIngreso : TransactionTypes := { transaction_type_id := 1, name := "Ingreso" }

def exTyGasto : TransactionTypes := { transaction_type_id := 2, name := "Gasto" }

/-- A type whose name matches neither synonym set. -/
def exTyTransfer : TransactionTypes := { transaction_type_id := 3, name := "Transferencia" }

def exCatVenta : TransactionCategories :=
  { transaction_category_id := 5, name := "Venta de café"
    transaction_type_id := 1, transaction_type := some exTyIngreso }

def exCatFert : TransactionCategories :=
  { transaction_category_id := 6, name := "Fertilizante"
    transaction_type_id := 2, transaction_type := some exTyGasto }

def exCatGiro : TransactionCategories :=
  { transaction_category_id := 7, name := "Giro"
    transaction_type_id := 3, transaction_type := some exTyTransfer }

/-- The category map fetched for the fixture transactions. -/
def exCmap : List (Nat × TransactionCategories) :=
  [(5, exCatVenta), (6, exCatFert), (7, exCatGiro)]

def exTxnIngreso : Transactions :=
  { transaction_id := 1, plot_id := 1, description := none, transaction_date := 10
    transaction_state_id := 1, value := 1000.5, transaction_category_id := 5
    creator_id := 9 }

def exTxnGasto : Transactions :=
  { transaction_id := 2, plot_id := 1, description := none, transaction_date := 11
    transaction_state_id := 1, value := 500.25, transaction_category_id := 6
    creator_id := 9 }

/-- A transaction classified by the unrecognized type "Transferencia". -/
def exTxnGiro : Transactions :=
  { transaction_id := 3, plot_id := 1, description := none, transaction_date := 12
    transaction_state_id := 1, value := 50, transaction_category_id := 7
    creator_id := 9 }

/-- A transaction whose category id 99 is absent from the category map. -/
def exTxnBadCat : Transactions :=
  { transaction_id := 4, plot_id := 1, description := none, transaction_date := 13
    transaction_state_id := 1, value := 77, transaction_category_id := 99
    creator_id := 9 }

/-- Database with the "Activo" state and all fixture transactions active. -/
def exDb : ReportDB :=
  { transaction_states :=
      [{ transaction_state_id := 1, name := "Activo" },
       { transaction_state_id := 2, name := "Inactivo" }]
    transactions := [exTxnIngreso, exTxnGasto, exTxnGiro, exTxnBadCat]
    transaction_categories := [exCatVenta, exCatFert, exCatGiro] }

/-- Same database but the "Activo" reference row is missing. -/
def exDbNoActivo : ReportDB :=
  { exDb with transaction_states := [{ transaction_state_id := 2, name := "Inactivo" }] }

/-- Database holding only the "Transferencia" transaction. -/
def exDbGiroOnly : ReportDB :=
  { exDb with transactions := [exTxnGiro] }

/-- The fixture transactions as fetched by the report query over `exDb`. -/
def exTxns : List Transactions := [exTxnIngreso, exTxnGasto, exTxnGiro, exTxnBadCat]

/-- The report produced by the success path on the fixture scenario. -/
def exReport : FinancialReportResponse :=
  build_report exEnv exReq exFarm [exPlot1] [(1, "Lote 1")] exTxns exCmap

/-- The accumulator state freshly initialised for the fixture plot. -/
def exAggState : AggState :=
  { plot_financials := initPlotFinancials [exPlot1] [(1, "Lote 1")]
    farm_totals := initFarmTotals }

/-- A stored transaction already in the "Inactivo" state (state id 2). -/
def exStoredTxn : StoredTransaction :=
  { transaction_id := 1, entity_type := "plot", entity_id := 1
    transaction_state_id := 2, transaction_category_id := 5
    transaction_type_id := 1, description := none, value := 10
    transaction_date := 10 }

/-- Write-path database containing the inactive fixture transaction. -/
def exWriteDb : WriteDB :=
  { transaction_states :=
      [{ transaction_state_id := 1, name := "Activo" },
       { transaction_state_id := 2, name := "Inactivo" }]
    transactions := [exStoredTxn]
    transaction_categories := [exCatVenta] }

/-- Fully permissive collaborators for the write paths. -/
def exWriteEnv : WriteEnv :=
  { verify_session_token := fun tok => if tok = "tok" then some exUser else none
    get_user_role_farm_state_by_name := fun _ => some { user_role_farm_state_id := some 1 }
    get_user_role_farm := fun _ _ =>
      some { user_role_farm_id := 11, user_role_id := 2, farm_id := 100 }
    get_role_permissions_for_user_role := fun _ =>
      ["edit_transaction", "delete_transaction"]
    verify_plot := fun pid => if pid = 1 then some exPlot1 else none }

/-- Edit request targeting the inactive fixture transaction. -/
def exEditReq : UpdateTransactionRequest :=
  { transaction_id := 1, transaction_category_id := none, description := none
    value := some 20, transaction_date := none }

/-- Delete request targeting the inactive fixture transaction. -/
def exDelReq : DeleteTransactionRequest := { transaction_id := 1 }

theorem dictGetQ_dictAdd_self {κ : Type} [DecidableEq κ] (m : List (κ × ℚ))
    (k : κ) (v : ℚ) : dictGetQ (dictAdd m k v) k = dictGetQ m k + v := by
  induction m with
  | nil => simp [dictAdd, dictGetQ, dictFind]
  | cons hd tl ih =>
    obtain ⟨k₁, v₁⟩ := hd
    by_cases h : k₁ = k
    · simp [dictAdd, dictGetQ, dictFind, h]
    · simpa [dictAdd, dictGetQ, dictFind, h] using ih

theorem dictFind_dictAdd_ne {κ : Type} [DecidableEq κ] (m : List (κ × ℚ))
    (k k' : κ) (v : ℚ) (hne : k' ≠ k) :
    dictFind (dictAdd m k v) k' = dictFind m k' := by
  induction m with
  | nil => simp [dictAdd, dictFind, Ne.symm hne]
  | cons hd tl ih =>
    obtain ⟨k₁, v₁⟩ := hd
    by_cases h : k₁ = k
    · subst h
      simp [dictAdd, dictFind, Ne.symm hne]
    · by_cases h' : k₁ = k'
      · subst h'
        simp [dictAdd, dictFind, h, hne]
      · simpa [dictAdd, dictFind, h, h'] using ih

theorem dictGetQ_dictAdd_ne {κ : Type} [DecidableEq κ] (m : List (κ × ℚ))
    (k k' : κ) (v : ℚ) (hne : k' ≠ k) :
    dictGetQ (dictAdd m k v) k' = dictGetQ m k' := by
  simp [dictGetQ, dictFind_dictAdd_ne m k k' v hne]

theorem sumVals_dictAdd {κ : Type} [DecidableEq κ] (m : List (κ × ℚ))
    (k : κ) (v : ℚ) : sumVals (dictAdd m k v) = sumVals m + v := by
  induction m with
  | nil => simp [dictAdd, sumVals]
  | cons hd tl ih =>
    obtain ⟨k₁, v₁⟩ := hd
    by_cases h : k₁ = k
    · simp [dictAdd, sumVals, h]
      ring
    · simp only [dictAdd, sumVals, if_neg h, List.map_cons, List.sum_cons] at *
      rw [ih]
      ring

theorem keys_dictAdd {κ : Type} [DecidableEq κ] (m : List (κ × ℚ))
    (k : κ) (v : ℚ) :
    keys (dictAdd m k v) = if k ∈ keys m then keys m else keys m ++ [k] := by
  induction m with
  | nil => simp [dictAdd, keys]
  | cons hd tl ih =>
    obtain ⟨k₁, v₁⟩ := hd
    by_cases h : k₁ = k
    · simp [dictAdd, keys, h]
    · have hne : ¬ k = k₁ := fun hc => h hc.symm
      simp only [dictAdd, if_neg h, keys, List.map_cons, List.mem_cons, hne, false_or]
      by_cases hmem : k ∈ List.map (fun p => p.1) tl
      · simp only [keys] at ih
        simp [hmem, ih]
      · simp only [keys] at ih
        simp [hmem, ih]

theorem keys_nodup_dictAdd {κ : Type} [DecidableEq κ] (m : List (κ × ℚ))
    (k : κ) (v : ℚ) (h : (keys m).Nodup) : (keys (dictAdd m k v)).Nodup := by
  rw [keys_dictAdd]
  by_cases hmem : k ∈ keys m
  · simpa [hmem] using h
  · simp only [hmem, if_false]
    refine List.Nodup.append h (List.nodup_singleton k) ?_
    intro a ha hb
    rw [List.mem_singleton.mp hb] at ha
    exact hmem ha

theorem dictFind_dictUpdate_self {κ α : Type} [DecidableEq κ]
    (m : List (κ × α)) (k : κ) (f : α → α) :
    dictFind (dictUpdate m k f) k = (dictFind m k).map f := by
  induction m with
  | nil => simp [dictUpdate, dictFind]
  | cons hd tl ih =>
    obtain ⟨k₁, v⟩ := hd
    by_cases h : k₁ = k
    · simp [dictUpdate, dictFind, h]
    · simpa [dictUpdate, dictFind, h] using ih

theorem dictFind_dictUpdate_ne {κ α : Type} [DecidableEq κ]
    (m : List (κ × α)) (k k' : κ) (f : α → α) (hne : k' ≠ k) :
    dictFind (dictUpdate m k f) k' = dictFind m k' := by
  induction m with
  | nil => simp [dictUpdate, dictFind]
  | cons hd tl ih =>
    obtain ⟨k₁, v⟩ := hd
    by_cases h : k₁ = k
    · subst h
      simp [dictUpdate, dictFind, Ne.symm hne]
    · by_cases h' : k₁ = k'
      · subst h'
        simp [dictUpdate, dictFind, h, hne]
      · simpa [dictUpdate, dictFind, h, h'] using ih

theorem sumBy_dictUpdate_add {κ α : Type} [DecidableEq κ] (g : α → ℚ)
    (m : List (κ × α)) (k : κ) (f : α → α) (v : ℚ)
    (hf : ∀ a, g (f a) = g a + v) (hk : (dictFind m k).isSome) :
    sumBy g (dictUpdate m k f) = sumBy g m + v := by
  induction m with
  | nil => simp [dictFind] at hk
  | cons hd tl ih =>
    obtain ⟨k₁, a⟩ := hd
    by_cases h : k₁ = k
    · simp [dictUpdate, sumBy, h, hf]
      ring
    · simp only [dictFind, if_neg h] at hk
      simp only [dictUpdate, if_neg h, sumBy, List.map_cons, List.sum_cons] at *
      rw [ih hk]
      ring

theorem sumBy_dictUpdate_congr {κ α : Type} [DecidableEq κ] (g : α → ℚ)
    (m : List (κ × α)) (k : κ) (f : α → α)
    (hf : ∀ a, g (f a) = g a) :
    sumBy g (dictUpdate m k f) = sumBy g m := by
  induction m with
  | nil => simp [dictUpdate, sumBy]
  | cons hd tl ih =>
    obtain ⟨k₁, a⟩ := hd
    by_cases h : k₁ = k
    · simp [dictUpdate, sumBy, h, hf]
    · simp only [dictUpdate, if_neg h, sumBy, List.map_cons, List.sum_cons] at *
      rw [ih]

theorem forall_mem_dictUpdate {κ α : Type} [DecidableEq κ]
    (P : α → Prop) (m : List (κ × α)) (k : κ) (f : α → α)
    (hf : ∀ a, P a → P (f a)) (hm : ∀ p ∈ m, P p.2) :
    ∀ p ∈ dictUpdate m k f, P p.2 := by
  induction m with
  | nil => simp [dictUpdate]
  | cons hd tl ih =>
    obtain ⟨k₁, a⟩ := hd
    intro p hp
    by_cases h : k₁ = k
    · simp only [dictUpdate, if_pos h, List.mem_cons] at hp
      rcases hp with hp | hp
      · subst hp
        exact hf a (hm (k₁, a) (by simp))
      · exact hm p (List.mem_cons_of_mem _ hp)
    · simp only [dictUpdate, if_neg h, List.mem_cons] at hp
      rcases hp with hp | hp
      · subst hp
        exact hm (k₁, a) (by simp)
      · exact ih (fun q hq => hm q (List.mem_cons_of_mem _ hq)) p hp

theorem dictFind_dictInsert_self {κ α : Type} [DecidableEq κ]
    (m : List (κ × α)) (k : κ) (v : α) :
    dictFind (dictInsert m k v) k = some v := by
  induction m with
  | nil => simp [dictInsert, dictFind]
  | cons hd tl ih =>
    obtain ⟨k₁, v₁⟩ := hd
    by_cases h : k₁ = k
    · simp [dictInsert, dictFind, h]
    · simpa [dictInsert, dictFind, h] using ih

theorem dictFind_dictInsert_ne {κ α : Type} [DecidableEq κ]
    (m : List (κ × α)) (k k' : κ) (v : α) (hne : k' ≠ k) :
    dictFind (dictInsert m k v) k' = dictFind m k' := by
  induction m with
  | nil => simp [dictInsert, dictFind, Ne.symm hne]
  | cons hd tl ih =>
    obtain ⟨k₁, v₁⟩ := hd
    by_cases h : k₁ = k
    · subst h
      simp [dictInsert, dictFind, Ne.symm hne]
    · by_cases h' : k₁ = k'
      · subst h'
        simp [dictInsert, dictFind, h, hne]
      · simpa [dictInsert, dictFind, h, h'] using ih

/-! ### Branch lemmas for `_process_transaction` -/

theorem process_transaction_cat_missing (txn : Transactions)
    (cmap : List (Nat × TransactionCategories)) (s : AggState)
    (hcat : dictFind cmap txn.transaction_category_id = none) :
    process_transaction txn cmap s = s := by
  unfold process_transaction
  cases hplot : dictFind s.plot_financials txn.plot_id with
  | none => rfl
  | some a => simp only [hcat]

theorem process_transaction_plot_missing (txn : Transactions)
    (cmap : List (Nat × TransactionCategories)) (s : AggState)
    (hplot : dictFind s.plot_financials txn.plot_id = none) :
    process_transaction txn cmap s = s := by
  unfold process_transaction
  rw [hplot]

theorem process_transaction_type_none (txn : Transactions)
    (cmap : List (Nat × TransactionCategories)) (s : AggState)
    (cat : TransactionCategories)
    (hcat : dictFind cmap txn.transaction_category_id = some cat)
    (hty : cat.transaction_type = none) :
    process_transaction txn cmap s = s := by
  unfold process_transaction
  cases hplot : dictFind s.plot_financials txn.plot_id with
  | none => rfl
  | some a => simp only [hcat, hty]

theorem process_transaction_unrecognized (txn : Transactions)
    (cmap : List (Nat × TransactionCategories)) (s : AggState)
    (cat : TransactionCategories) (ty : TransactionTypes)
    (hcat : dictFind cmap txn.transaction_category_id = some cat)
    (hty : cat.transaction_type = some ty)
    (hni : pyLower ty.name ∉ incomeSynonyms)
    (hne : pyLower ty.name ∉ expenseSynonyms) :
    process_transaction txn cmap s = s := by
  unfold process_transaction
  cases hplot : dictFind s.plot_financials txn.plot_id with
  | none => rfl
  | some a =>
    simp only [hcat, hty]
    simp [hni, hne]

theorem process_transaction_income (txn : Transactions)
    (cmap : List (Nat × TransactionCategories)) (s : AggState)
    (a : PlotAcc) (cat : TransactionCategories) (ty : TransactionTypes)
    (hplot : dictFind s.plot_financials txn.plot_id = some a)
    (hcat : dictFind cmap txn.transaction_category_id = some cat)
    (hty : cat.transaction_type = some ty)
    (hin : pyLower ty.name ∈ incomeSynonyms) :
    process_transaction txn cmap s =
      { plot_financials :=
          dictUpdate s.plot_financials txn.plot_id (fun b =>
            { b with
              ingresos := b.ingresos + txn.value
              ingresos_por_categoria :=
                dictAdd b.ingresos_por_categoria cat.name txn.value })
        farm_totals :=
          { s.farm_totals with
            ingresos := s.farm_totals.ingresos + txn.value
            ingresos_categorias :=
              dictAdd s.farm_totals.ingresos_categorias cat.name txn.value } } := by
  unfold process_transaction
  simp only [hplot, hcat, hty]
  simp [hin]

theorem income_not_expense (x : String) (hin : x ∈ incomeSynonyms) :
    x ∉ expenseSynonyms := by
  simp only [incomeSynonyms, List.mem_cons, List.not_mem_nil, or_false] at hin
  rcases hin with rfl | rfl | rfl <;> simp [expenseSynonyms]

theorem process_transaction_expense (txn : Transactions)
    (cmap : List (Nat × TransactionCategories)) (s : AggState)
    (a : PlotAcc) (cat : TransactionCategories) (ty : TransactionTypes)
    (hplot : dictFind s.plot_financials txn.plot_id = some a)
    (hcat : dictFind cmap txn.transaction_category_id = some cat)
    (hty : cat.transaction_type = some ty)
    (hex : pyLower ty.name ∈ expenseSynonyms) :
    process_transaction txn cmap s =
      { plot_financials :=
          dictUpdate s.plot_financials txn.plot_id (fun b =>
            { b with
              gastos := b.gastos + txn.value
              gastos_por_categoria :=
                dictAdd b.gastos_por_categoria cat.name txn.value })
        farm_totals :=
          { s.farm_totals with
            gastos := s.farm_totals.gastos + txn.value
            gastos_categorias :=
              dictAdd s.farm_totals.gastos_categorias cat.name txn.value } } := by
  have hni : pyLower ty.name ∉ incomeSynonyms := by
    intro hin
    exact income_not_expense _ hin hex
  unfold process_transaction
  simp only [hplot, hcat, hty]
  simp [hni, hex]

/-! ### Aggregation invariants -/

theorem forall_mem_foldl_dictInsert {κ α β : Type} [DecidableEq κ]
    (P : α → Prop) (key : β → κ) (val : β → α) (l : List β)
    (hv : ∀ b, P (val b)) :
    ∀ m, (∀ p ∈ m, P p.2) →
      ∀ p ∈ l.foldl (fun acc b => dictInsert acc (key b) (val b)) m, P p.2 := by
  induction l with
  | nil => intro m hm; simpa using hm
  | cons b l ih =>
    intro m hm
    simp only [List.foldl_cons]
    refine ih _ ?_
    intro p hp
    clear ih
    induction m with
    | nil =>
      simp only [dictInsert, List.mem_singleton] at hp
      subst hp
      exact hv b
    | cons q m ihm =>
      obtain ⟨k₁, v₁⟩ := q
      by_cases h : k₁ = key b
      · simp only [dictInsert, if_pos h, List.mem_cons] at hp
        rcases hp with hp | hp
        · subst hp; exact hv b
        · exact hm _ (List.mem_cons_of_mem _ hp)
      · simp only [dictInsert, if_neg h, List.mem_cons] at hp
        rcases hp with hp | hp
        · subst hp; exact hm (k₁, v₁) (by simp)
        · exact ihm (fun q hq => hm q (List.mem_cons_of_mem _ hq)) hp

/-- Every entry of the freshly initialised `plot_financials` dict is the
all-zero accumulator record. -/
theorem forall_mem_initPlotFinancials (plots : List PlotVerificationResponse)
    (plot_names : List (Nat × String)) :
    ∀ p ∈ initPlotFinancials plots plot_names,
      p.2.ingresos = 0 ∧ p.2.gastos = 0 ∧
      p.2.ingresos_por_categoria = [] ∧ p.2.gastos_por_categoria = [] := by
  unfold initPlotFinancials
  exact forall_mem_foldl_dictInsert
    (fun (a : PlotAcc) => a.ingresos = 0 ∧ a.gastos = 0 ∧
      a.ingresos_por_categoria = [] ∧ a.gastos_por_categoria = [])
    (fun (p : PlotVerificationResponse) => p.plot_id)
    (fun (p : PlotVerificationResponse) =>
      { plot_id := p.plot_id
        plot_name := (dictFind plot_names p.plot_id).getD ""
        ingresos := 0
        gastos := 0
        balance := 0
        ingresos_por_categoria := []
        gastos_por_categoria := [] })
    plots (fun b => ⟨rfl, rfl, rfl, rfl⟩) [] (by simp)

theorem sumBy_eq_zero {κ α : Type} (g : α → ℚ) (m : List (κ × α))
    (h : ∀ p ∈ m, g p.2 = 0) : sumBy g m = 0 := by
  induction m with
  | nil => simp [sumBy]
  | cons q m ih =>
    have hm := ih (fun p hp => h p (List.mem_cons_of_mem _ hp))
    simp only [sumBy, List.map_cons, List.sum_cons] at hm ⊢
    rw [h q (by simp), hm]
    ring

theorem aggSums_process (txn : Transactions)
    (cmap : List (Nat × TransactionCategories)) (s : AggState)
    (h : aggSums s) : aggSums (process_transaction txn cmap s) := by
  rcases hplot : dictFind s.plot_financials txn.plot_id with _ | a
  · rw [process_transaction_plot_missing txn cmap s hplot]; exact h
  rcases hcat : dictFind cmap txn.transaction_category_id with _ | cat
  · rw [process_transaction_cat_missing txn cmap s hcat]; exact h
  rcases hty : cat.transaction_type with _ | ty
  · rw [process_transaction_type_none txn cmap s cat hcat hty]; exact h
  by_cases hin : pyLower ty.name ∈ incomeSynonyms
  · rw [process_transaction_income txn cmap s a cat ty hplot hcat hty hin]
    constructor
    · have := sumBy_dictUpdate_add PlotAcc.ingresos s.plot_financials txn.plot_id
        (fun b =>
          { b with
            ingresos := b.ingresos + txn.value
            ingresos_por_categoria :=
              dictAdd b.ingresos_por_categoria cat.name txn.value })
        txn.value (fun b => rfl) (by simp [hplot])
      simpa [this] using congrArg (fun x => x + txn.value) h.1
    · have := sumBy_dictUpdate_congr PlotAcc.gastos s.plot_financials txn.plot_id
        (fun b =>
          { b with
            ingresos := b.ingresos + txn.value
            ingresos_por_categoria :=
              dictAdd b.ingresos_por_categoria cat.name txn.value })
        (fun b => rfl)
      simpa [this] using h.2
  by_cases hex : pyLower ty.name ∈ expenseSynonyms
  · rw [process_transaction_expense txn cmap s a cat ty hplot hcat hty hex]
    constructor
    · have := sumBy_dictUpdate_congr PlotAcc.ingresos s.plot_financials txn.plot_id
        (fun b =>
          { b with
            gastos := b.gastos + txn.value
            gastos_por_categoria :=
              dictAdd b.gastos_por_categoria cat.name txn.value })
        (fun b => rfl)
      simpa [this] using h.1
    · have := sumBy_dictUpdate_add PlotAcc.gastos s.plot_financials txn.plot_id
        (fun b =>
          { b with
            gastos := b.gastos + txn.value
            gastos_por_categoria :=
              dictAdd b.gastos_por_categoria cat.name txn.value })
        txn.value (fun b => rfl) (by simp [hplot])
      simpa [this] using congrArg (fun x => x + txn.value) h.2
  · rw [process_transaction_unrecognized txn cmap s cat ty hcat hty hin hex]; exact h

theorem aggSums_processAll (transactions : List Transactions)
    (cmap : List (Nat × TransactionCategories)) (s : AggState)
    (h : aggSums s) : aggSums (processAll transactions cmap s) := by
  induction transactions generalizing s with
  | nil => simpa [processAll] using h
  | cons t l ih =>
    simp only [processAll, List.foldl_cons]
    exact ih _ (aggSums_process t cmap s h)

theorem aggSums_init (plots : List PlotVerificationResponse)
    (plot_names : List (Nat × String)) :
    aggSums { plot_financials := initPlotFinancials plots plot_names
              farm_totals := initFarmTotals } := by
  constructor
  · show initFarmTotals.ingresos = _
    rw [sumBy_eq_zero]
    · rfl
    · intro p hp
      exact (forall_mem_initPlotFinancials plots plot_names p hp).1
  · show initFarmTotals.gastos = _
    rw [sumBy_eq_zero]
    · rfl
    · intro p hp
      exact (forall_mem_initPlotFinancials plots plot_names p hp).2.1

theorem aggCatInv_process (txn : Transactions)
    (cmap : List (Nat × TransactionCategories)) (s : AggState)
    (h : aggCatInv s) : aggCatInv (process_transaction txn cmap s) := by
  obtain ⟨hplots, hfi, hfg, hni, hng⟩ := h
  rcases hplot : dictFind s.plot_financials txn.plot_id with _ | a
  · rw [process_transaction_plot_missing txn cmap s hplot]; exact ⟨hplots, hfi, hfg, hni, hng⟩
  rcases hcat : dictFind cmap txn.transaction_category_id with _ | cat
  · rw [process_transaction_cat_missing txn cmap s hcat]; exact ⟨hplots, hfi, hfg, hni, hng⟩
  rcases hty : cat.transaction_type with _ | ty
  · rw [process_transaction_type_none txn cmap s cat hcat hty]
    exact ⟨hplots, hfi, hfg, hni, hng⟩
  by_cases hin : pyLower ty.name ∈ incomeSynonyms
  · rw [process_transaction_income txn cmap s a cat ty hplot hcat hty hin]
    refine ⟨?_, ?_, ?_, ?_, ?_⟩
    · refine forall_mem_dictUpdate _ _ _ _ ?_ hplots
      intro b hb
      obtain ⟨h1, h2, h3, h4⟩ := hb
      exact ⟨by simpa [sumVals_dictAdd] using congrArg (fun x => x + txn.value) h1,
        h2, keys_nodup_dictAdd _ _ _ h3, h4⟩
    · simpa [sumVals_dictAdd] using congrArg (fun x => x + txn.value) hfi
    · exact hfg
    · exact keys_nodup_dictAdd _ _ _ hni
    · exact hng
  by_cases hex : pyLower ty.name ∈ expenseSynonyms
  · rw [process_transaction_expense txn cmap s a cat ty hplot hcat hty hex]
    refine ⟨?_, ?_, ?_, ?_, ?_⟩
    · refine forall_mem_dictUpdate _ _ _ _ ?_ hplots
      intro b hb
      obtain ⟨h1, h2, h3, h4⟩ := hb
      exact ⟨h1, by simpa [sumVals_dictAdd] using congrArg (fun x => x + txn.value) h2,
        h3, keys_nodup_dictAdd _ _ _ h4⟩
    · exact hfi
    · simpa [sumVals_dictAdd] using congrArg (fun x => x + txn.value) hfg
    · exact hni
    · exact keys_nodup_dictAdd _ _ _ hng
  · rw [process_transaction_unrecognized txn cmap s cat ty hcat hty hin hex]
    exact ⟨hplots, hfi, hfg, hni, hng⟩

theorem aggCatInv_processAll (transactions : List Transactions)
    (cmap : List (Nat × TransactionCategories)) (s : AggState)
    (h : aggCatInv s) : aggCatInv (processAll transactions cmap s) := by
  induction transactions generalizing s with
  | nil => simpa [processAll] using h
  | cons t l ih =>
    simp only [processAll, List.foldl_cons]
    exact ih _ (aggCatInv_process t cmap s h)

theorem aggCatInv_init (plots : List PlotVerificationResponse)
    (plot_names : List (Nat × String)) :
    aggCatInv { plot_financials := initPlotFinancials plots plot_names
                farm_totals := initFarmTotals } := by
  refine ⟨?_, rfl, rfl, by simp [initFarmTotals, keys], by simp [initFarmTotals, keys]⟩
  intro p hp
  obtain ⟨h1, h2, h3, h4⟩ := forall_mem_initPlotFinancials plots plot_names p hp
  exact ⟨by simp [h1, h3, sumVals], by simp [h2, h4, sumVals],
    by simp [h3, keys], by simp [h4, keys]⟩

/-! ### Characterisation of successful reports -/

theorem handle_report_error_data (e : PyErr) :
    (handle_report_error e).data = none := by
  cases e <;> rfl

theorem handle_report_error_status (e : PyErr) :
    (handle_report_error e).status = "error" := by
  cases e <;> rfl

/-- Any payload returned by `generate_financial_report` is a report built by
the success branch from some intermediate results. -/
theorem generate_data_some (env : Env) (db : ReportDB)
    (request : FinancialReportRequest) (user : UserResponse)
    (report : FinancialReportResponse)
    (h : (generate_financial_report env db request user).data = some report) :
    ∃ farm plots plot_names transactions categories_map,
      report = build_report env request farm plots plot_names transactions
        categories_map := by
  unfold generate_financial_report at h
  split at h
  · rw [handle_report_error_data] at h
    exact absurd h (by simp)
  · split at h
    · exact absurd h (by simp [create_response])
    · split at h
      · rw [handle_report_error_data] at h
        exact absurd h (by simp)
      · split at h
        · rw [handle_report_error_data] at h
          exact absurd h (by simp)
        · simp only [create_response, Option.some.injEq] at h
          exact ⟨_, _, _, _, _, h.symm⟩

theorem build_report_plot_financials (env : Env)
    (request : FinancialReportRequest) (farm : FarmDetailResponse)
    (plots : List PlotVerificationResponse) (plot_names : List (Nat × String))
    (transactions : List Transactions)
    (categories_map : List (Nat × TransactionCategories)) :
    (build_report env request farm plots plot_names transactions
        categories_map).plot_financials =
      build_plot_financials_list
        (processAll transactions categories_map
          { plot_financials := initPlotFinancials plots plot_names
            farm_totals := initFarmTotals }).plot_financials := rfl

theorem build_report_farm_summary (env : Env)
    (request : FinancialReportRequest) (farm : FarmDetailResponse)
    (plots : List PlotVerificationResponse) (plot_names : List (Nat × String))
    (transactions : List Transactions)
    (categories_map : List (Nat × TransactionCategories)) :
    (build_report env request farm plots plot_names transactions
        categories_map).farm_summary =
      { total_ingresos :=
          (processAll transactions categories_map
            { plot_financials := initPlotFinancials plots plot_names
              farm_totals := initFarmTotals }).farm_totals.ingresos
        total_gastos :=
          (processAll transactions categories_map
            { plot_financials := initPlotFinancials plots plot_names
              farm_totals := initFarmTotals }).farm_totals.gastos
        balance_financiero :=
          (processAll transactions categories_map
            { plot_financials := initPlotFinancials plots plot_names
              farm_totals := initFarmTotals }).farm_totals.ingresos -
          (processAll transactions categories_map
            { plot_financials := initPlotFinancials plots plot_names
              farm_totals := initFarmTotals }).farm_totals.gastos
        ingresos_por_categoria :=
          toBreakdownList
            (processAll transactions categories_map
              { plot_financials := initPlotFinancials plots plot_names
                farm_totals := initFarmTotals }).farm_totals.ingresos_categorias
        gastos_por_categoria :=
          toBreakdownList
            (processAll transactions categories_map
              { plot_financials := initPlotFinancials plots plot_names
                farm_totals := initFarmTotals }).farm_totals.gastos_categorias } := rfl

theorem balance_mem_build_plot_financials_list
    (m : List (Nat × PlotAcc)) :
    ∀ pd ∈ build_plot_financials_list m, pd.balance = pd.ingresos - pd.gastos := by
  intro pd hpd
  simp only [build_plot_financials_list, List.mem_map] at hpd
  obtain ⟨p, hp, rfl⟩ := hpd
  rfl

theorem map_ingresos_build_plot_financials_list (m : List (Nat × PlotAcc)) :
    (build_plot_financials_list m).map PlotFinancialData.ingresos =
      m.map (fun p => p.2.ingresos) := by
  simp [build_plot_financials_list, List.map_map]

theorem map_gastos_build_plot_financials_list (m : List (Nat × PlotAcc)) :
    (build_plot_financials_list m).map PlotFinancialData.gastos =
      m.map (fun p => p.2.gastos) := by
  simp [build_plot_financials_list, List.map_map]

theorem map_monto_toBreakdownList (m : List (String × ℚ)) :
    (toBreakdownList m).map FinancialCategoryBreakdown.monto =
      m.map (fun p => p.2) := by
  simp [toBreakdownList, List.map_map]

theorem map_category_name_toBreakdownList (m : List (String × ℚ)) :
    (toBreakdownList m).map FinancialCategoryBreakdown.category_name = keys m := by
  simp [toBreakdownList, keys, List.map_map]

/-- Once the plots, the farm, the permissions and the "Activo" state row
resolve, `generate_financial_report` returns the 200 success response. -/
theorem generate_success (env : Env) (db : ReportDB)
    (request : FinancialReportRequest) (user : UserResponse)
    (plots : List PlotVerificationResponse) (plot_names : List (Nat × String))
    (farm_id : Nat) (farm : FarmDetailResponse)
    (hval : validate_and_get_plots env.verify_plot request.plot_ids =
      .ok (plots, plot_names, farm_id))
    (hfarm : env.get_farm_by_id farm_id = some farm)
    (hperm : validate_user_permissions env.get_user_role_farm
      env.get_role_permissions_for_user_role user farm_id = .ok ())
    (hstate : (get_transaction_state db "Activo").isSome) :
    (generate_financial_report env db request user).status = "success" ∧
    (generate_financial_report env db request user).status_code = 200 := by
  obtain ⟨st, hst⟩ := Option.isSome_iff_exists.mp hstate
  unfold generate_financial_report
  simp only [hval, hfarm, hperm]
  unfold get_transactions_and_categories
  simp only [hst]
  exact ⟨rfl, rfl⟩

/-! ### Claim theorems -/

/-- C1: In every successfully generated financial report, the balance field
equals income total minus expense total, exactly, for each
`PlotFinancialData` entry (`balance = ingresos - gastos`) and for the
`FarmFinancialSummary` (`balance_financiero = total_ingresos - total_gastos`). -/
theorem report_balance_equals_income_minus_expense (env : Env) (db : ReportDB)
    (request : FinancialReportRequest) (user : UserResponse)
    (report : FinancialReportResponse)
    (h : (generate_financial_report env db request user).data = some report) :
    (∀ pd ∈ report.plot_financials, pd.balance = pd.ingresos - pd.gastos) ∧
    report.farm_summary.balance_financiero =
      report.farm_summary.total_ingresos - report.farm_summary.total_gastos := by
  obtain ⟨farm, plots, plot_names, transactions, categories_map, rfl⟩ :=
    generate_data_some env db request user report h
  constructor
  · rw [build_report_plot_financials]
    exact balance_mem_build_plot_financials_list _
  · rfl

/-- Witness for C1 at the fixture scenario. -/
theorem report_balance_equals_income_minus_expense_witness :
    (∀ pd ∈ exReport.plot_financials, pd.balance = pd.ingresos - pd.gastos) ∧
    exReport.farm_summary.balance_financiero =
      exReport.farm_summary.total_ingresos - exReport.farm_summary.total_gastos :=
  report_balance_equals_income_minus_expense exEnv exDb exReq exUser exReport rfl

/-- C7 counterexample: with a non-empty plot list in which every individual
plot verification returns none, `generate_financial_report` responds with
HTTP 400, not with the 404 not-found class the claim states. -/
theorem all_plots_unverified_responds_400 :
    exReq.plot_ids ≠ [] ∧
    (∀ pid ∈ exReq.plot_ids, exEnvNoPlots.verify_plot pid = none) ∧
    (generate_financial_report exEnvNoPlots exDb exReq exUser).status = "error" ∧
    (generate_financial_report exEnvNoPlots exDb exReq exUser).status_code = 400 := by
  refine ⟨by decide, by decide, ?_, ?_⟩ <;> decide

/-- C7 (amended): when the plot list is non-empty and every individual plot
verification returns none, the report fails with the client-visible
bad-request class (HTTP 400) carrying the no-active-plots message: the
message "No se encontraron lotes activos con los IDs proporcionados" does
not contain the substring "no encontrado" matched by the 404 branch. -/
theorem all_plots_unverified_bad_request (env : Env) (db : ReportDB)
    (request : FinancialReportRequest) (user : UserResponse)
    (hne : request.plot_ids ≠ [])
    (hnone : ∀ pid ∈ request.plot_ids, env.verify_plot pid = none) :
    generate_financial_report env db request user =
      create_response "error"
        "No se encontraron lotes activos con los IDs proporcionados" 400 none := by
  have hplots : request.plot_ids.filterMap env.verify_plot = [] := by
    rw [List.filterMap_eq_nil_iff]
    exact hnone
  have hmsg : pyContains
      "No se encontraron lotes activos con los IDs proporcionados"
      "no encontrado" = false := by decide
  unfold generate_financial_report validate_and_get_plots
  simp only [hplots, List.isEmpty_nil, if_true, handle_report_error, hmsg,
    Bool.false_eq_true, if_false]

/-- Witness for the amended C7 at the fixture scenario. -/
theorem all_plots_unverified_bad_request_witness :
    generate_financial_report exEnvNoPlots exDb exReq exUser =
      create_response "error"
        "No se encontraron lotes activos con los IDs proporcionados" 400 none :=
  all_plots_unverified_bad_request exEnvNoPlots exDb exReq exUser
    (by decide) (by decide)

/-- C8: when the "Activo" transaction-state reference row cannot be
resolved, `generate_financial_report` responds with HTTP 404 (the message
"Estado 'Activo' para Transactions no encontrado" contains "no encontrado",
so the `ValueError` handler picks the not-found branch), not with the
server-side 500 class the claim states. -/
theorem active_state_missing_responds_404 :
    get_transaction_state exDbNoActivo "Activo" = none ∧
    (generate_financial_report exEnv exDbNoActivo exReq exUser).status = "error" ∧
    (generate_financial_report exEnv exDbNoActivo exReq exUser).status_code = 404 ∧
    (generate_financial_report exEnv exDbNoActivo exReq exUser).message =
      "Estado 'Activo' para Transactions no encontrado" := by
  refine ⟨by decide, ?_, ?_, ?_⟩ <;> decide

/-- C2: for every generated report the farm-level income (resp. expense)
total equals the sum of the plot-level income (resp. expense) totals; and
each single processed transaction changes the farm-level accumulator and
the sum of the plot-level accumulators by the same amount (in both
directions, since the two deltas are stated equal). -/
theorem farm_totals_equal_sum_of_plot_totals :
    (∀ (env : Env) (db : ReportDB) (request : FinancialReportRequest)
        (user : UserResponse) (report : FinancialReportResponse),
      (generate_financial_report env db request user).data = some report →
      report.farm_summary.total_ingresos =
        (report.plot_financials.map PlotFinancialData.ingresos).sum ∧
      report.farm_summary.total_gastos =
        (report.plot_financials.map PlotFinancialData.gastos).sum) ∧
    (∀ (txn : Transactions) (cmap : List (Nat × TransactionCategories))
        (s : AggState),
      (process_transaction txn cmap s).farm_totals.ingresos -
          s.farm_totals.ingresos =
        sumBy PlotAcc.ingresos (process_transaction txn cmap s).plot_financials -
          sumBy PlotAcc.ingresos s.plot_financials ∧
      (process_transaction txn cmap s).farm_totals.gastos -
          s.farm_totals.gastos =
        sumBy PlotAcc.gastos (process_transaction txn cmap s).plot_financials -
          sumBy PlotAcc.gastos s.plot_financials) := by
  constructor
  · intro env db request user report h
    obtain ⟨farm, plots, plot_names, txns, cmap, rfl⟩ :=
      generate_data_some env db request user report h
    have hinv := aggSums_processAll txns cmap _ (aggSums_init plots plot_names)
    rw [build_report_farm_summary, build_report_plot_financials]
    constructor
    · rw [map_ingresos_build_plot_financials_list]
      simpa [sumBy] using hinv.1
    · rw [map_gastos_build_plot_financials_list]
      simpa [sumBy] using hinv.2
  · intro txn cmap s
    rcases hplot : dictFind s.plot_financials txn.plot_id with _ | a
    · rw [process_transaction_plot_missing txn cmap s hplot]
      simp
    rcases hcat : dictFind cmap txn.transaction_category_id with _ | cat
    · rw [process_transaction_cat_missing txn cmap s hcat]
      simp
    rcases hty : cat.transaction_type with _ | ty
    · rw [process_transaction_type_none txn cmap s cat hcat hty]
      simp
    by_cases hin : pyLower ty.name ∈ incomeSynonyms
    · rw [process_transaction_income txn cmap s a cat ty hplot hcat hty hin]
      constructor
      · rw [sumBy_dictUpdate_add PlotAcc.ingresos s.plot_financials txn.plot_id
          (fun b =>
            { b with
              ingresos := b.ingresos + txn.value
              ingresos_por_categoria :=
                dictAdd b.ingresos_por_categoria cat.name txn.value })
          txn.value (fun b => rfl) (by simp [hplot])]
        ring
      · rw [sumBy_dictUpdate_congr PlotAcc.gastos s.plot_financials txn.plot_id
          (fun b =>
            { b with
              ingresos := b.ingresos + txn.value
              ingresos_por_categoria :=
                dictAdd b.ingresos_por_categoria cat.name txn.value })
          (fun b => rfl)]
        ring
    by_cases hex : pyLower ty.name ∈ expenseSynonyms
    · rw [process_transaction_expense txn cmap s a cat ty hplot hcat hty hex]
      constructor
      · rw [sumBy_dictUpdate_congr PlotAcc.ingresos s.plot_financials txn.plot_id
          (fun b =>
            { b with
              gastos := b.gastos + txn.value
              gastos_por_categoria :=
                dictAdd b.gastos_por_categoria cat.name txn.value })
          (fun b => rfl)]
        ring
      · rw [sumBy_dictUpdate_add PlotAcc.gastos s.plot_financials txn.plot_id
          (fun b =>
            { b with
              gastos := b.gastos + txn.value
              gastos_por_categoria :=
                dictAdd b.gastos_por_categoria cat.name txn.value })
          txn.value (fun b => rfl) (by simp [hplot])]
        ring
    · rw [process_transaction_unrecognized txn cmap s cat ty hcat hty hin hex]
      simp

/-- Witness for C2 at the fixture scenario (report level, and the
single-transaction delta for the income fixture transaction). -/
theorem farm_totals_equal_sum_of_plot_totals_witness :
    (exReport.farm_summary.total_ingresos =
      (exReport.plot_financials.map PlotFinancialData.ingresos).sum ∧
     exReport.farm_summary.total_gastos =
      (exReport.plot_financials.map PlotFinancialData.gastos).sum) ∧
    ((process_transaction exTxnIngreso exCmap exAggState).farm_totals.ingresos -
        exAggState.farm_totals.ingresos =
      sumBy PlotAcc.ingresos
          (process_transaction exTxnIngreso exCmap exAggState).plot_financials -
        sumBy PlotAcc.ingresos exAggState.plot_financials) :=
  ⟨farm_totals_equal_sum_of_plot_totals.1 exEnv exDb exReq exUser exReport rfl,
   (farm_totals_equal_sum_of_plot_totals.2 exTxnIngreso exCmap exAggState).1⟩

/-- C10: in every successfully generated report, each scope's income
(resp. expense) total equals the sum of the amounts in its per-category
breakdown, and the category names in each breakdown list are pairwise
distinct — for every `PlotFinancialData` and for the `FarmFinancialSummary`. -/
theorem totals_equal_sum_of_category_breakdowns (env : Env) (db : ReportDB)
    (request : FinancialReportRequest) (user : UserResponse)
    (report : FinancialReportResponse)
    (h : (generate_financial_report env db request user).data = some report) :
    (∀ pd ∈ report.plot_financials,
      pd.ingresos =
        (pd.ingresos_por_categoria.map FinancialCategoryBreakdown.monto).sum ∧
      pd.gastos =
        (pd.gastos_por_categoria.map FinancialCategoryBreakdown.monto).sum ∧
      (pd.ingresos_por_categoria.map FinancialCategoryBreakdown.category_name).Nodup ∧
      (pd.gastos_por_categoria.map FinancialCategoryBreakdown.category_name).Nodup) ∧
    (report.farm_summary.total_ingresos =
      (report.farm_summary.ingresos_por_categoria.map
        FinancialCategoryBreakdown.monto).sum ∧
     report.farm_summary.total_gastos =
      (report.farm_summary.gastos_por_categoria.map
        FinancialCategoryBreakdown.monto).sum ∧
     (report.farm_summary.ingresos_por_categoria.map
        FinancialCategoryBreakdown.category_name).Nodup ∧
     (report.farm_summary.gastos_por_categoria.map
        FinancialCategoryBreakdown.category_name).Nodup) := by
  obtain ⟨farm, plots, plot_names, txns, cmap, rfl⟩ :=
    generate_data_some env db request user report h
  obtain ⟨hplots, hfi, hfg, hknI, hknG⟩ :=
    aggCatInv_processAll txns cmap _ (aggCatInv_init plots plot_names)
  constructor
  · rw [build_report_plot_financials]
    intro pd hpd
    simp only [build_plot_financials_list, List.mem_map] at hpd
    obtain ⟨p, hp, rfl⟩ := hpd
    obtain ⟨h1, h2, h3, h4⟩ := hplots p hp
    refine ⟨?_, ?_, ?_, ?_⟩
    · rw [map_monto_toBreakdownList]
      simpa [sumVals] using h1
    · rw [map_monto_toBreakdownList]
      simpa [sumVals] using h2
    · rw [map_category_name_toBreakdownList]
      exact h3
    · rw [map_category_name_toBreakdownList]
      exact h4
  · rw [build_report_farm_summary]
    refine ⟨?_, ?_, ?_, ?_⟩
    · rw [map_monto_toBreakdownList]
      simpa [sumVals] using hfi
    · rw [map_monto_toBreakdownList]
      simpa [sumVals] using hfg
    · rw [map_category_name_toBreakdownList]
      exact hknI
    · rw [map_category_name_toBreakdownList]
      exact hknG

/-- Witness for C10 at the fixture scenario. -/
theorem totals_equal_sum_of_category_breakdowns_witness :
    (∀ pd ∈ exReport.plot_financials,
      pd.ingresos =
        (pd.ingresos_por_categoria.map FinancialCategoryBreakdown.monto).sum ∧
      pd.gastos =
        (pd.gastos_por_categoria.map FinancialCategoryBreakdown.monto).sum ∧
      (pd.ingresos_por_categoria.map FinancialCategoryBreakdown.category_name).Nodup ∧
      (pd.gastos_por_categoria.map FinancialCategoryBreakdown.category_name).Nodup) ∧
    (exReport.farm_summary.total_ingresos =
      (exReport.farm_summary.ingresos_por_categoria.map
        FinancialCategoryBreakdown.monto).sum ∧
     exReport.farm_summary.total_gastos =
      (exReport.farm_summary.gastos_por_categoria.map
        FinancialCategoryBreakdown.monto).sum ∧
     (exReport.farm_summary.ingresos_por_categoria.map
        FinancialCategoryBreakdown.category_name).Nodup ∧
     (exReport.farm_summary.gastos_por_categoria.map
        FinancialCategoryBreakdown.category_name).Nodup) :=
  totals_equal_sum_of_category_breakdowns exEnv exDb exReq exUser exReport rfl

/-- C3: a transaction whose resolved type name (lower-cased) is an income
synonym adds its value to exactly the four income accumulators (plot total,
plot per-category, farm total, farm per-category) and leaves every expense
accumulator — and every other income accumulator — unchanged; symmetrically
for an expense synonym. -/
theorem classified_transaction_updates_only_matched_side
    (txn : Transactions) (cmap : List (Nat × TransactionCategories))
    (s : AggState) (cat : TransactionCategories) (ty : TransactionTypes)
    (hcat : dictFind cmap txn.transaction_category_id = some cat)
    (hty : cat.transaction_type = some ty)
    (hplot : (dictFind s.plot_financials txn.plot_id).isSome) :
    (pyLower ty.name ∈ incomeSynonyms →
      plotIngresos (process_transaction txn cmap s) txn.plot_id =
        plotIngresos s txn.plot_id + txn.value ∧
      plotIngresosCat (process_transaction txn cmap s) txn.plot_id cat.name =
        plotIngresosCat s txn.plot_id cat.name + txn.value ∧
      (process_transaction txn cmap s).farm_totals.ingresos =
        s.farm_totals.ingresos + txn.value ∧
      farmIngresosCat (process_transaction txn cmap s) cat.name =
        farmIngresosCat s cat.name + txn.value ∧
      (∀ pid, plotGastos (process_transaction txn cmap s) pid = plotGastos s pid) ∧
      (∀ pid cn, plotGastosCat (process_transaction txn cmap s) pid cn =
        plotGastosCat s pid cn) ∧
      (process_transaction txn cmap s).farm_totals.gastos = s.farm_totals.gastos ∧
      (∀ cn, farmGastosCat (process_transaction txn cmap s) cn = farmGastosCat s cn) ∧
      (∀ pid, pid ≠ txn.plot_id →
        plotIngresos (process_transaction txn cmap s) pid = plotIngresos s pid) ∧
      (∀ pid cn, pid ≠ txn.plot_id ∨ cn ≠ cat.name →
        plotIngresosCat (process_transaction txn cmap s) pid cn =
          plotIngresosCat s pid cn) ∧
      (∀ cn, cn ≠ cat.name →
        farmIngresosCat (process_transaction txn cmap s) cn = farmIngresosCat s cn)) ∧
    (pyLower ty.name ∈ expenseSynonyms →
      plotGastos (process_transaction txn cmap s) txn.plot_id =
        plotGastos s txn.plot_id + txn.value ∧
      plotGastosCat (process_transaction txn cmap s) txn.plot_id cat.name =
        plotGastosCat s txn.plot_id cat.name + txn.value ∧
      (process_transaction txn cmap s).farm_totals.gastos =
        s.farm_totals.gastos + txn.value ∧
      farmGastosCat (process_transaction txn cmap s) cat.name =
        farmGastosCat s cat.name + txn.value ∧
      (∀ pid, plotIngresos (process_transaction txn cmap s) pid = plotIngresos s pid) ∧
      (∀ pid cn, plotIngresosCat (process_transaction txn cmap s) pid cn =
        plotIngresosCat s pid cn) ∧
      (process_transaction txn cmap s).farm_totals.ingresos =
        s.farm_totals.ingresos ∧
      (∀ cn, farmIngresosCat (process_transaction txn cmap s) cn = farmIngresosCat s cn) ∧
      (∀ pid, pid ≠ txn.plot_id →
        plotGastos (process_transaction txn cmap s) pid = plotGastos s pid) ∧
      (∀ pid cn, pid ≠ txn.plot_id ∨ cn ≠ cat.name →
        plotGastosCat (process_transaction txn cmap s) pid cn =
          plotGastosCat s pid cn) ∧
      (∀ cn, cn ≠ cat.name →
        farmGastosCat (process_transaction txn cmap s) cn = farmGastosCat s cn)) := by
  obtain ⟨a, ha⟩ := Option.isSome_iff_exists.mp hplot
  constructor
  · intro hin
    rw [process_transaction_income txn cmap s a cat ty ha hcat hty hin]
    refine ⟨?_, ?_, rfl, ?_, ?_, ?_, rfl, fun cn => rfl, ?_, ?_, ?_⟩
    · simp [plotIngresos, dictFind_dictUpdate_self, ha]
    · simp [plotIngresosCat, dictFind_dictUpdate_self, ha, dictGetQ_dictAdd_self]
    · simp [farmIngresosCat, dictGetQ_dictAdd_self]
    · intro pid
      by_cases hpid : pid = txn.plot_id
      · subst hpid
        simp [plotGastos, dictFind_dictUpdate_self, ha]
      · simp [plotGastos, dictFind_dictUpdate_ne _ _ _ _ hpid]
    · intro pid cn
      by_cases hpid : pid = txn.plot_id
      · subst hpid
        simp [plotGastosCat, dictFind_dictUpdate_self, ha]
      · simp [plotGastosCat, dictFind_dictUpdate_ne _ _ _ _ hpid]
    · intro pid hpid
      simp [plotIngresos, dictFind_dictUpdate_ne _ _ _ _ hpid]
    · intro pid cn hor
      by_cases hpid : pid = txn.plot_id
      · subst hpid
        rcases hor with hpid' | hcn
        · exact absurd rfl hpid'
        · simp [plotIngresosCat, dictFind_dictUpdate_self, ha,
            dictGetQ_dictAdd_ne _ _ _ _ hcn]
      · simp [plotIngresosCat, dictFind_dictUpdate_ne _ _ _ _ hpid]
    · intro cn hcn
      simp [farmIngresosCat, dictGetQ_dictAdd_ne _ _ _ _ hcn]
  · intro hex
    rw [process_transaction_expense txn cmap s a cat ty ha hcat hty hex]
    refine ⟨?_, ?_, rfl, ?_, ?_, ?_, rfl, fun cn => rfl, ?_, ?_, ?_⟩
    · simp [plotGastos, dictFind_dictUpdate_self, ha]
    · simp [plotGastosCat, dictFind_dictUpdate_self, ha, dictGetQ_dictAdd_self]
    · simp [farmGastosCat, dictGetQ_dictAdd_self]
    · intro pid
      by_cases hpid : pid = txn.plot_id
      · subst hpid
        simp [plotIngresos, dictFind_dictUpdate_self, ha]
      · simp [plotIngresos, dictFind_dictUpdate_ne _ _ _ _ hpid]
    · intro pid cn
      by_cases hpid : pid = txn.plot_id
      · subst hpid
        simp [plotIngresosCat, dictFind_dictUpdate_self, ha]
      · simp [plotIngresosCat, dictFind_dictUpdate_ne _ _ _ _ hpid]
    · intro pid hpid
      simp [plotGastos, dictFind_dictUpdate_ne _ _ _ _ hpid]
    · intro pid cn hor
      by_cases hpid : pid = txn.plot_id
      · subst hpid
        rcases hor with hpid' | hcn
        · exact absurd rfl hpid'
        · simp [plotGastosCat, dictFind_dictUpdate_self, ha,
            dictGetQ_dictAdd_ne _ _ _ _ hcn]
      · simp [plotGastosCat, dictFind_dictUpdate_ne _ _ _ _ hpid]
    · intro cn hcn
      simp [farmGastosCat, dictGetQ_dictAdd_ne _ _ _ _ hcn]

/-- Witness for C3: the income fixture transaction increments the plot
income total and leaves the farm expense total unchanged; the expense
fixture transaction increments the plot expense total and leaves the farm
income total unchanged. -/
theorem classified_transaction_updates_only_matched_side_witness :
    (plotIngresos (process_transaction exTxnIngreso exCmap exAggState) 1 =
        plotIngresos exAggState 1 + exTxnIngreso.value ∧
      (process_transaction exTxnIngreso exCmap exAggState).farm_totals.gastos =
        exAggState.farm_totals.gastos) ∧
    (plotGastos (process_transaction exTxnGasto exCmap exAggState) 1 =
        plotGastos exAggState 1 + exTxnGasto.value ∧
      (process_transaction exTxnGasto exCmap exAggState).farm_totals.ingresos =
        exAggState.farm_totals.ingresos) := by
  have hi := (classified_transaction_updates_only_matched_side exTxnIngreso exCmap
    exAggState exCatVenta exTyIngreso rfl rfl (by decide)).1 (by decide)
  have hg := (classified_transaction_updates_only_matched_side exTxnGasto exCmap
    exAggState exCatFert exTyGasto rfl rfl (by decide)).2 (by decide)
  exact ⟨⟨hi.1, hi.2.2.2.2.2.2.1⟩, ⟨hg.1, hg.2.2.2.2.2.2.1⟩⟩

/-- C4 counterexample: the "Transferencia" fixture transaction is skipped
by the aggregator, but with history requested it still yields exactly one
`TransactionHistoryItem` in the returned report, contradicting the claim
that it must be absent from the history list. -/
theorem transferencia_appears_in_history :
    pyLower exTyTransfer.name ∉ incomeSynonyms ∧
    pyLower exTyTransfer.name ∉ expenseSynonyms ∧
    exReq.include_transaction_history = true ∧
    ((generate_financial_report exEnv exDbGiroOnly exReq exUser).data.map
      (fun r => (r.transaction_history.getD []).map
        (fun item => item.transaction_type))) = some ["Transferencia"] := by
  refine ⟨by decide, by decide, by decide, by decide⟩

/-- C4 (amended): a transaction whose resolved type name is in neither
synonym set contributes to no income or expense accumulator
(`_process_transaction` leaves the state unchanged), but — since the
history builder only skips transactions whose category or type is
unresolved — it still produces exactly one `TransactionHistoryItem` when
history is requested. -/
theorem unrecognized_type_skips_totals_but_appears_in_history
    (txn : Transactions) (cmap : List (Nat × TransactionCategories))
    (s : AggState) (cat : TransactionCategories) (ty : TransactionTypes)
    (guid : Nat → Option UserResponse) (pn : List (Nat × String)) (fn : String)
    (st : HistState)
    (hcat : dictFind cmap txn.transaction_category_id = some cat)
    (hty : cat.transaction_type = some ty)
    (hni : pyLower ty.name ∉ incomeSynonyms)
    (hnx : pyLower ty.name ∉ expenseSynonyms) :
    process_transaction txn cmap s = s ∧
    (history_step guid cmap pn fn st txn).items =
      st.items ++
        [{ date := txn.transaction_date
           plot_name := (dictFind pn txn.plot_id).getD
             ("Lote #" ++ toString txn.plot_id)
           farm_name := fn
           transaction_type := ty.name
           transaction_category := cat.name
           creator_name := (get_creator_info guid st.creator_cache txn.creator_id).1
           value := txn.value }] := by
  constructor
  · exact process_transaction_unrecognized txn cmap s cat ty hcat hty hni hnx
  · unfold history_step
    simp only [hcat, hty]

/-- Witness for the amended C4 at the fixture scenario. -/
theorem unrecognized_type_skips_totals_but_appears_in_history_witness :
    process_transaction exTxnGiro exCmap exAggState = exAggState ∧
    (history_step (fun _ => none) exCmap [(1, "Lote 1")] "Finca La Esperanza"
        { items := [], creator_cache := [], calls := [] } exTxnGiro).items =
      ([] : List TransactionHistoryItem) ++
        [{ date := exTxnGiro.transaction_date
           plot_name := (dictFind [(1, "Lote 1")] exTxnGiro.plot_id).getD
             ("Lote #" ++ toString exTxnGiro.plot_id)
           farm_name := "Finca La Esperanza"
           transaction_type := exTyTransfer.name
           transaction_category := exCatGiro.name
           creator_name := (get_creator_info (fun _ => none)
             (HistState.mk [] [] []).creator_cache exTxnGiro.creator_id).1
           value := exTxnGiro.value }] :=
  unrecognized_type_skips_totals_but_appears_in_history exTxnGiro exCmap
    exAggState exCatGiro exTyTransfer (fun _ => none) [(1, "Lote 1")]
    "Finca La Esperanza" { items := [], creator_cache := [], calls := [] }
    rfl rfl (by decide) (by decide)

/-- C5 counterexample: with the external user lookup returning none for
creator 9, two fixture transactions by creator 9 inside one
history-building invocation trigger two `get_user_by_id` calls for id 9
(the miss is never cached), contradicting "at most once for every possible
collaborator behaviour including the lookup returning none". -/
theorem creator_lookup_not_memoized_on_miss :
    ((fun _ => (none : Option UserResponse)) 9 = none) ∧
    (build_transaction_history (fun _ => none) [exTxnIngreso, exTxnGasto]
      exCmap [(1, "Lote 1")] "Finca La Esperanza").calls = [9, 9] :=
  ⟨rfl, by decide⟩

theorem history_step_calls_count (guid : Nat → Option UserResponse)
    (cmap : List (Nat × TransactionCategories)) (pn : List (Nat × String))
    (fn : String) (st : HistState) (txn : Transactions) (cid : Nat)
    (u : UserResponse) (hu : guid cid = some u)
    (hst : st.calls.count cid =
      (if (dictFind st.creator_cache cid).isSome then 1 else 0)) :
    (history_step guid cmap pn fn st txn).calls.count cid =
      (if (dictFind (history_step guid cmap pn fn st txn).creator_cache cid).isSome
        then 1 else 0) := by
  unfold history_step
  cases hc : dictFind cmap txn.transaction_category_id with
  | none => exact hst
  | some cat =>
    dsimp only
    cases hty : cat.transaction_type with
    | none => exact hst
    | some ty =>
      dsimp only
      unfold get_creator_info
      cases hcache : dictFind st.creator_cache txn.creator_id with
      | some cached =>
        dsimp only
        simpa using hst
      | none =>
        dsimp only
        by_cases hcid : txn.creator_id = cid
        · subst hcid
          rw [hu]
          dsimp only
          rw [hcache] at hst
          simp only [Option.isSome_none, Bool.false_eq_true, if_false] at hst
          simp [List.count_append, List.count_cons, List.count_nil,
            dictFind_dictInsert_self, hst]
        · have hcid' : cid ≠ txn.creator_id := fun h => hcid h.symm
          cases hg : guid txn.creator_id with
          | some u₂ =>
            dsimp only
            simp [List.count_append, List.count_cons, List.count_nil, hcid',
              dictFind_dictInsert_ne _ _ _ _ hcid', hst, beq_iff_eq]
          | none =>
            dsimp only
            simp [List.count_append, List.count_cons, List.count_nil, hcid',
              hst, beq_iff_eq]

theorem build_history_calls_invariant (guid : Nat → Option UserResponse)
    (cmap : List (Nat × TransactionCategories)) (pn : List (Nat × String))
    (fn : String) (cid : Nat) (u : UserResponse) (hu : guid cid = some u) :
    ∀ (l : List Transactions) (st : HistState),
      st.calls.count cid =
        (if (dictFind st.creator_cache cid).isSome then 1 else 0) →
      (l.foldl (history_step guid cmap pn fn) st).calls.count cid =
        (if (dictFind (l.foldl (history_step guid cmap pn fn) st).creator_cache
          cid).isSome then 1 else 0) := by
  intro l
  induction l with
  | nil => intro st h; simpa using h
  | cons t l ih =>
    intro st h
    simp only [List.foldl_cons]
    exact ih _ (history_step_calls_count guid cmap pn fn st t cid u hu h)

/-- C5 (amended): within one history-building invocation, a creator id
whose external lookup returns a user is looked up at most once — the first
occurrence populates the request-scoped cache and every later occurrence
hits it. (When the lookup returns none, the miss is not cached and the
collaborator is re-invoked on each occurrence of that id.) -/
theorem creator_lookup_memoized_when_user_found
    (guid : Nat → Option UserResponse) (transactions : List Transactions)
    (cmap : List (Nat × TransactionCategories)) (pn : List (Nat × String))
    (fn : String) (cid : Nat) (u : UserResponse) (hu : guid cid = some u) :
    (build_transaction_history guid transactions cmap pn fn).calls.count cid ≤ 1 := by
  unfold build_transaction_history
  rw [build_history_calls_invariant guid cmap pn fn cid u hu transactions _
    (by simp [dictFind, List.count_nil])]
  split <;> omega

/-- Witness for the amended C5: with the lookup returning a user, creator 9
appearing in two transactions is looked up at most once. -/
theorem creator_lookup_memoized_when_user_found_witness :
    (build_transaction_history (fun _ => some exUser) [exTxnIngreso, exTxnGasto]
      exCmap [(1, "Lote 1")] "Finca La Esperanza").calls.count 9 ≤ 1 :=
  creator_lookup_memoized_when_user_found (fun _ => some exUser)
    [exTxnIngreso, exTxnGasto] exCmap [(1, "Lote 1")] "Finca La Esperanza"
    9 exUser rfl

/-- C6: a transaction whose category id is absent from the fetched category
map contributes zero to every accumulator (the aggregator returns the state
unchanged), produces no `TransactionHistoryItem` (the history step returns
its state unchanged), and report generation still completes successfully
once plots, farm, permissions and the "Activo" state resolve — the skip
never aborts the report. -/
theorem missing_category_contributes_nothing :
    (∀ (txn : Transactions) (cmap : List (Nat × TransactionCategories))
        (s : AggState),
      dictFind cmap txn.transaction_category_id = none →
      process_transaction txn cmap s = s) ∧
    (∀ (guid : Nat → Option UserResponse)
        (cmap : List (Nat × TransactionCategories)) (pn : List (Nat × String))
        (fn : String) (st : HistState) (txn : Transactions),
      dictFind cmap txn.transaction_category_id = none →
      history_step guid cmap pn fn st txn = st) ∧
    (∀ (env : Env) (db : ReportDB) (request : FinancialReportRequest)
        (user : UserResponse) (plots : List PlotVerificationResponse)
        (plot_names : List (Nat × String)) (farm_id : Nat)
        (farm : FarmDetailResponse),
      validate_and_get_plots env.verify_plot request.plot_ids =
        .ok (plots, plot_names, farm_id) →
      env.get_farm_by_id farm_id = some farm →
      validate_user_permissions env.get_user_role_farm
        env.get_role_permissions_for_user_role user farm_id = .ok () →
      (get_transaction_state db "Activo").isSome →
      (generate_financial_report env db request user).status = "success" ∧
      (generate_financial_report env db request user).status_code = 200) := by
  refine ⟨process_transaction_cat_missing, ?_, ?_⟩
  · intro guid cmap pn fn st txn h
    unfold history_step
    rw [h]
  · intro env db request user plots plot_names farm_id farm hval hfarm hperm hstate
    exact generate_success env db request user plots plot_names farm_id farm
      hval hfarm hperm hstate

/-- Witness for C6: the fixture transaction with category id 99 (absent
from the map) changes neither the accumulators nor the history state, and
the fixture report — whose database contains that transaction — succeeds. -/
theorem missing_category_contributes_nothing_witness :
    process_transaction exTxnBadCat exCmap exAggState = exAggState ∧
    history_step (fun _ => none) exCmap [(1, "Lote 1")] "Finca La Esperanza"
      { items := [], creator_cache := [], calls := [] } exTxnBadCat =
      { items := [], creator_cache := [], calls := [] } ∧
    (generate_financial_report exEnv exDb exReq exUser).status = "success" ∧
    (generate_financial_report exEnv exDb exReq exUser).status_code = 200 := by
  have h3 := missing_category_contributes_nothing.2.2 exEnv exDb exReq exUser
    [exPlot1] [(1, "Lote 1")] 100 exFarm rfl rfl rfl (by decide)
  exact ⟨missing_category_contributes_nothing.1 exTxnBadCat exCmap exAggState
      (by decide),
    missing_category_contributes_nothing.2.1 (fun _ => none) exCmap
      [(1, "Lote 1")] "Finca La Esperanza"
      { items := [], creator_cache := [], calls := [] } exTxnBadCat (by decide),
    h3.1, h3.2⟩

/-- C9: a transaction already in the "Inactivo" state is immutable: every
edit request and every delete request targeting it is answered with an
error response and leaves the database — hence the transaction record —
unchanged, whatever the collaborators do. -/
theorem inactive_transaction_immutable :
    (∀ (env : WriteEnv) (db : WriteDB) (request : UpdateTransactionRequest)
        (session_token : String) (ist : TransactionStates) (t : StoredTransaction),
      get_transaction_state_rows db.transaction_states "Inactivo" = some ist →
      db.transactions.find?
        (fun u => u.transaction_id == request.transaction_id) = some t →
      t.transaction_state_id = ist.transaction_state_id →
      (edit_transaction_use_case env db request session_token).1.status = "error" ∧
      (edit_transaction_use_case env db request session_token).2 = db) ∧
    (∀ (env : WriteEnv) (db : WriteDB) (request : DeleteTransactionRequest)
        (session_token : String) (ist : TransactionStates) (t : StoredTransaction),
      get_transaction_state_rows db.transaction_states "Inactivo" = some ist →
      db.transactions.find?
        (fun u => u.transaction_id == request.transaction_id) = some t →
      t.transaction_state_id = ist.transaction_state_id →
      (delete_transaction_use_case env db request session_token).1.status = "error" ∧
      (delete_transaction_use_case env db request session_token).2 = db) := by
  constructor
  · intro env db request session_token ist t hist hfind hstate
    unfold edit_transaction_use_case
    by_cases htok : session_token = ""
    · rw [if_pos htok]
      exact ⟨rfl, rfl⟩
    · rw [if_neg htok]
      cases hu : env.verify_session_token session_token with
      | none => exact ⟨rfl, rfl⟩
      | some user =>
        dsimp only
        rw [hfind]
        dsimp only
        rw [hist]
        dsimp only
        rw [if_pos hstate]
        exact ⟨rfl, rfl⟩
  · intro env db request session_token ist t hist hfind hstate
    unfold delete_transaction_use_case
    by_cases htok : session_token = ""
    · rw [if_pos htok]
      exact ⟨rfl, rfl⟩
    · rw [if_neg htok]
      cases hu : env.verify_session_token session_token with
      | none => exact ⟨rfl, rfl⟩
      | some user =>
        dsimp only
        rw [hfind]
        dsimp only
        rw [hist]
        dsimp only
        rw [if_pos hstate]
        exact ⟨rfl, rfl⟩

/-- Witness for C9 at the fixture scenario: an inactive stored transaction
targeted by a well-formed edit and delete request (valid session, all
permissions granted) is rejected and the database is unchanged. -/
theorem inactive_transaction_immutable_witness :
    ((edit_transaction_use_case exWriteEnv exWriteDb exEditReq "tok").1.status =
        "error" ∧
      (edit_transaction_use_case exWriteEnv exWriteDb exEditReq "tok").2 =
        exWriteDb) ∧
    ((delete_transaction_use_case exWriteEnv exWriteDb exDelReq "tok").1.status =
        "error" ∧
      (delete_transaction_use_case exWriteEnv exWriteDb exDelReq "tok").2 =
        exWriteDb) :=
  ⟨inactive_transaction_immutable.1 exWriteEnv exWriteDb exEditReq "tok"
      { transaction_state_id := 2, name := "Inactivo" } exStoredTxn rfl rfl rfl,
   inactive_transaction_immutable.2 exWriteEnv exWriteDb exDelReq "tok"
      { transaction_state_id := 2, name := "Inactivo" } exStoredTxn rfl rfl rfl⟩

end CoffeeTech
